import Mathlib

/-!
Verification development for the toylang compiler front-end and interpreter.

The development shallowly embeds:
 * the AST data model (expression/statement pools indexed by 32-bit refs,
   an interner mapping symbols to strings),
 * the static type checker (`frontend/src/type_checker.rs`): the stateful
   visitor, `Number` literal inference, the in-place rewriting of `Number`
   nodes, and the finalization pass, and
 * the tree-walking evaluator (`interpreter/src/main.rs`).

Machine integers are embedded as `Int`/`Nat` with explicit 2^64 wrap-around
where the host arithmetic wraps; Rust `panic!` (a crash) is distinguished from
a returned `Err` (a reported error) in the evaluator's error type.  Recursion
through pool references is bounded by an explicit fuel parameter standing for
the host call stack; exhausting it yields an error, so every theorem that is
conditioned on a successful (`ok`) run holds for the Rust original.
-/

namespace Toylang

/-- A 32-bit index into the expression pool (`ExprRef` in the source). -/
structure ExprRef where
  idx : Nat
deriving DecidableEq, Repr

/-- A 32-bit index into the statement pool (`StmtRef` in the source). -/
structure StmtRef where
  idx : Nat
deriving DecidableEq, Repr

/-- Binary operators of the language (`Operator` in the source AST). -/
inductive Operator where
  | IAdd | ISub | IMul | IDiv
  | EQ | NE | LT | LE | GT | GE
  | LogicalAnd | LogicalOr
deriving DecidableEq, Repr

/-- Declared types (`TypeDecl` in the source). -/
inductive TypeDecl where
  | Unit
  | Bool
  | Int64
  | UInt64
  | String
  | Number
  | Unknown
  | Any
  | Array (element_types : List TypeDecl) (size : Nat)
  | Identifier (name : Nat)
  | Struct (name : Nat)

mutual

/-- Decidable equality for `TypeDecl` (the derive handler does not support
the nested `List TypeDecl` payload of `Array`). -/
def TypeDecl.decEq : (a b : TypeDecl) → Decidable (a = b)
  | .Unit, .Unit => isTrue rfl
  | .Unit, .Bool => isFalse (fun h => TypeDecl.noConfusion h)
  | .Unit, .Int64 => isFalse (fun h => TypeDecl.noConfusion h)
  | .Unit, .UInt64 => isFalse (fun h => TypeDecl.noConfusion h)
  | .Unit, .String => isFalse (fun h => TypeDecl.noConfusion h)
  | .Unit, .Number => isFalse (fun h => TypeDecl.noConfusion h)
  | .Unit, .Unknown => isFalse (fun h => TypeDecl.noConfusion h)
  | .Unit, .Any => isFalse (fun h => TypeDecl.noConfusion h)
  | .Unit, .Array fs m => isFalse (fun h => TypeDecl.noConfusion h)
  | .Unit, .Identifier y => isFalse (fun h => TypeDecl.noConfusion h)
  | .Unit, .Struct y => isFalse (fun h => TypeDecl.noConfusion h)
  | .Bool, .Unit => isFalse (fun h => TypeDecl.noConfusion h)
  | .Bool, .Bool => isTrue rfl
  | .Bool, .Int64 => isFalse (fun h => TypeDecl.noConfusion h)
  | .Bool, .UInt64 => isFalse (fun h => TypeDecl.noConfusion h)
  | .Bool, .String => isFalse (fun h => TypeDecl.noConfusion h)
  | .Bool, .Number => isFalse (fun h => TypeDecl.noConfusion h)
  | .Bool, .Unknown => isFalse (fun h => TypeDecl.noConfusion h)
  | .Bool, .Any => isFalse (fun h => TypeDecl.noConfusion h)
  | .Bool, .Array fs m => isFalse (fun h => TypeDecl.noConfusion h)
  | .Bool, .Identifier y => isFalse (fun h => TypeDecl.noConfusion h)
  | .Bool, .Struct y => isFalse (fun h => TypeDecl.noConfusion h)
  | .Int64, .Unit => isFalse (fun h => TypeDecl.noConfusion h)
  | .Int64, .Bool => isFalse (fun h => TypeDecl.noConfusion h)
  | .Int64, .Int64 => isTrue rfl
  | .Int64, .UInt64 => isFalse (fun h => TypeDecl.noConfusion h)
  | .Int64, .String => isFalse (fun h => TypeDecl.noConfusion h)
  | .Int64, .Number => isFalse (fun h => TypeDecl.noConfusion h)
  | .Int64, .Unknown => isFalse (fun h => TypeDecl.noConfusion h)
  | .Int64, .Any => isFalse (fun h => TypeDecl.noConfusion h)
  | .Int64, .Array fs m => isFalse (fun h => TypeDecl.noConfusion h)
  | .Int64, .Identifier y => isFalse (fun h => TypeDecl.noConfusion h)
  | .Int64, .Struct y => isFalse (fun h => TypeDecl.noConfusion h)
  | .UInt64, .Unit => isFalse (fun h => TypeDecl.noConfusion h)
  | .UInt64, .Bool => isFalse (fun h => TypeDecl.noConfusion h)
  | .UInt64, .Int64 => isFalse (fun h => TypeDecl.noConfusion h)
  | .UInt64, .UInt64 => isTrue rfl
  | .UInt64, .String => isFalse (fun h => TypeDecl.noConfusion h)
  | .UInt64, .Number => isFalse (fun h => TypeDecl.noConfusion h)
  | .UInt64, .Unknown => isFalse (fun h => TypeDecl.noConfusion h)
  | .UInt64, .Any => isFalse (fun h => TypeDecl.noConfusion h)
  | .UInt64, .Array fs m => isFalse (fun h => TypeDecl.noConfusion h)
  | .UInt64, .Identifier y => isFalse (fun h => TypeDecl.noConfusion h)
  | .UInt64, .Struct y => isFalse (fun h => TypeDecl.noConfusion h)
  | .String, .Unit => isFalse (fun h => TypeDecl.noConfusion h)
  | .String, .Bool => isFalse (fun h => TypeDecl.noConfusion h)
  | .String, .Int64 => isFalse (fun h => TypeDecl.noConfusion h)
  | .String, .UInt64 => isFalse (fun h => TypeDecl.noConfusion h)
  | .String, .String => isTrue rfl
  | .String, .Number => isFalse (fun h => TypeDecl.noConfusion h)
  | .String, .Unknown => isFalse (fun h => TypeDecl.noConfusion h)
  | .String, .Any => isFalse (fun h => TypeDecl.noConfusion h)
  | .String, .Array fs m => isFalse (fun h => TypeDecl.noConfusion h)
  | .String, .Identifier y => isFalse (fun h => TypeDecl.noConfusion h)
  | .String, .Struct y => isFalse (fun h => TypeDecl.noConfusion h)
  | .Number, .Unit => isFalse (fun h => TypeDecl.noConfusion h)
  | .Number, .Bool => isFalse (fun h => TypeDecl.noConfusion h)
  | .Number, .Int64 => isFalse (fun h => TypeDecl.noConfusion h)
  | .Number, .UInt64 => isFalse (fun h => TypeDecl.noConfusion h)
  | .Number, .String => isFalse (fun h => TypeDecl.noConfusion h)
  | .Number, .Number => isTrue rfl
  | .Number, .Unknown => isFalse (fun h => TypeDecl.noConfusion h)
  | .Number, .Any => isFalse (fun h => TypeDecl.noConfusion h)
  | .Number, .Array fs m => isFalse (fun h => TypeDecl.noConfusion h)
  | .Number, .Identifier y => isFalse (fun h => TypeDecl.noConfusion h)
  | .Number, .Struct y => isFalse (fun h => TypeDecl.noConfusion h)
  | .Unknown, .Unit => isFalse (fun h => TypeDecl.noConfusion h)
  | .Unknown, .Bool => isFalse (fun h => TypeDecl.noConfusion h)
  | .Unknown, .Int64 => isFalse (fun h => TypeDecl.noConfusion h)
  | .Unknown, .UInt64 => isFalse (fun h => TypeDecl.noConfusion h)
  | .Unknown, .String => isFalse (fun h => TypeDecl.noConfusion h)
  | .Unknown, .Number => isFalse (fun h => TypeDecl.noConfusion h)
  | .Unknown, .Unknown => isTrue rfl
  | .Unknown, .Any => isFalse (fun h => TypeDecl.noConfusion h)
  | .Unknown, .Array fs m => isFalse (fun h => TypeDecl.noConfusion h)
  | .Unknown, .Identifier y => isFalse (fun h => TypeDecl.noConfusion h)
  | .Unknown, .Struct y => isFalse (fun h => TypeDecl.noConfusion h)
  | .Any, .Unit => isFalse (fun h => TypeDecl.noConfusion h)
  | .Any, .Bool => isFalse (fun h => TypeDecl.noConfusion h)
  | .Any, .Int64 => isFalse (fun h => TypeDecl.noConfusion h)
  | .Any, .UInt64 => isFalse (fun h => TypeDecl.noConfusion h)
  | .Any, .String => isFalse (fun h => TypeDecl.noConfusion h)
  | .Any, .Number => isFalse (fun h => TypeDecl.noConfusion h)
  | .Any, .Unknown => isFalse (fun h => TypeDecl.noConfusion h)
  | .Any, .Any => isTrue rfl
  | .Any, .Array fs m => isFalse (fun h => TypeDecl.noConfusion h)
  | .Any, .Identifier y => isFalse (fun h => TypeDecl.noConfusion h)
  | .Any, .Struct y => isFalse (fun h => TypeDecl.noConfusion h)
  | .Array es n, .Unit => isFalse (fun h => TypeDecl.noConfusion h)
  | .Array es n, .Bool => isFalse (fun h => TypeDecl.noConfusion h)
  | .Array es n, .Int64 => isFalse (fun h => TypeDecl.noConfusion h)
  | .Array es n, .UInt64 => isFalse (fun h => TypeDecl.noConfusion h)
  | .Array es n, .String => isFalse (fun h => TypeDecl.noConfusion h)
  | .Array es n, .Number => isFalse (fun h => TypeDecl.noConfusion h)
  | .Array es n, .Unknown => isFalse (fun h => TypeDecl.noConfusion h)
  | .Array es n, .Any => isFalse (fun h => TypeDecl.noConfusion h)
  | .Array es n, .Array fs m =>
    match TypeDecl.decEqList es fs with
    | isTrue h1 =>
      match Nat.decEq n m with
      | isTrue h2 => isTrue (by rw [h1, h2])
      | isFalse h2 => isFalse (fun h => TypeDecl.noConfusion h (fun _ hn => h2 hn))
    | isFalse h1 => isFalse (fun h => TypeDecl.noConfusion h (fun he _ => h1 he))
  | .Array es n, .Identifier y => isFalse (fun h => TypeDecl.noConfusion h)
  | .Array es n, .Struct y => isFalse (fun h => TypeDecl.noConfusion h)
  | .Identifier x, .Unit => isFalse (fun h => TypeDecl.noConfusion h)
  | .Identifier x, .Bool => isFalse (fun h => TypeDecl.noConfusion h)
  | .Identifier x, .Int64 => isFalse (fun h => TypeDecl.noConfusion h)
  | .Identifier x, .UInt64 => isFalse (fun h => TypeDecl.noConfusion h)
  | .Identifier x, .String => isFalse (fun h => TypeDecl.noConfusion h)
  | .Identifier x, .Number => isFalse (fun h => TypeDecl.noConfusion h)
  | .Identifier x, .Unknown => isFalse (fun h => TypeDecl.noConfusion h)
  | .Identifier x, .Any => isFalse (fun h => TypeDecl.noConfusion h)
  | .Identifier x, .Array fs m => isFalse (fun h => TypeDecl.noConfusion h)
  | .Identifier x, .Identifier y =>
    match Nat.decEq x y with
    | isTrue h1 => isTrue (by rw [h1])
    | isFalse h1 => isFalse (fun h => TypeDecl.noConfusion h (fun hx => h1 hx))
  | .Identifier x, .Struct y => isFalse (fun h => TypeDecl.noConfusion h)
  | .Struct x, .Unit => isFalse (fun h => TypeDecl.noConfusion h)
  | .Struct x, .Bool => isFalse (fun h => TypeDecl.noConfusion h)
  | .Struct x, .Int64 => isFalse (fun h => TypeDecl.noConfusion h)
  | .Struct x, .UInt64 => isFalse (fun h => TypeDecl.noConfusion h)
  | .Struct x, .String => isFalse (fun h => TypeDecl.noConfusion h)
  | .Struct x, .Number => isFalse (fun h => TypeDecl.noConfusion h)
  | .Struct x, .Unknown => isFalse (fun h => TypeDecl.noConfusion h)
  | .Struct x, .Any => isFalse (fun h => TypeDecl.noConfusion h)
  | .Struct x, .Array fs m => isFalse (fun h => TypeDecl.noConfusion h)
  | .Struct x, .Identifier y => isFalse (fun h => TypeDecl.noConfusion h)
  | .Struct x, .Struct y =>
    match Nat.decEq x y with
    | isTrue h1 => isTrue (by rw [h1])
    | isFalse h1 => isFalse (fun h => TypeDecl.noConfusion h (fun hx => h1 hx))

/-- Decidable equality for lists of `TypeDecl`. -/
def TypeDecl.decEqList : (as bs : List TypeDecl) → Decidable (as = bs)
  | [], [] => isTrue rfl
  | [], _ :: _ => isFalse (fun h => List.noConfusion h)
  | _ :: _, [] => isFalse (fun h => List.noConfusion h)
  | a :: as, b :: bs =>
    match TypeDecl.decEq a b with
    | isTrue h1 =>
      match TypeDecl.decEqList as bs with
      | isTrue h2 => isTrue (by rw [h1, h2])
      | isFalse h2 => isFalse (fun h => List.noConfusion h (fun _ ht => h2 ht))
    | isFalse h1 => isFalse (fun h => List.noConfusion h (fun hh _ => h1 hh))

end

instance : DecidableEq TypeDecl := TypeDecl.decEq

mutual

/-- Rendering of a `TypeDecl`, used for the `Repr` instance. -/
def typeDeclStr : TypeDecl → String
  | .Unit => "Unit"
  | .Bool => "Bool"
  | .Int64 => "Int64"
  | .UInt64 => "UInt64"
  | .String => "String"
  | .Number => "Number"
  | .Unknown => "Unknown"
  | .Any => "Any"
  | .Array es n => "Array [" ++ typeDeclStrList es ++ "] " ++ toString n
  | .Identifier x => "Identifier " ++ toString x
  | .Struct x => "Struct " ++ toString x

/-- Rendering of a list of `TypeDecl`. -/
def typeDeclStrList : List TypeDecl → String
  | [] => ""
  | t :: ts => typeDeclStr t ++ " " ++ typeDeclStrList ts

end

instance : Repr TypeDecl := ⟨fun t _ => Std.Format.text (typeDeclStr t)⟩

/-- Modelled from the spec: a struct field of a `StructDecl` (the AST module
is not under src/); only its declared type is consulted by the checker. -/
structure StructField where
  name : Nat
  type_decl : TypeDecl
deriving DecidableEq, Repr

/-- Modelled from the spec: a method of an impl block (spec section 3.5). -/
structure MethodFunction where
  name : Nat
  parameter : List (Nat × TypeDecl)
  return_type : Option TypeDecl
  code : StmtRef
deriving DecidableEq, Repr

/-- A top-level function (spec section 3.5): `code` refers to the body block
statement. -/
structure Function where
  name : Nat
  parameter : List (Nat × TypeDecl)
  return_type : Option TypeDecl
  code : StmtRef
deriving DecidableEq, Repr

/-- Expressions (`Expr` in the source AST); symbols are interner indices. -/
inductive Expr where
  | Int64 (v : Int)
  | UInt64 (v : Nat)
  | Number (sym : Nat)
  | String (sym : Nat)
  | True
  | False
  | Null
  | Identifier (sym : Nat)
  | Binary (op : Operator) (lhs rhs : ExprRef)
  | Assign (lhs rhs : ExprRef)
  | Block (stmts : List StmtRef)
  | IfElifElse (cond then_blk : ExprRef) (elif_pairs : List (ExprRef × ExprRef)) (else_blk : ExprRef)
  | Call (fn_name : Nat) (args : ExprRef)
  | ExprList (items : List ExprRef)
  | ArrayLiteral (elements : List ExprRef)
  | ArrayAccess (array index : ExprRef)
  | FieldAccess (obj : ExprRef) (field : Nat)
  | MethodCall (obj : ExprRef) (method : Nat) (args : List ExprRef)
  | StructLiteral (struct_name : Nat) (fields : List (Nat × ExprRef))
deriving DecidableEq, Repr

/-- Statements (`Stmt` in the source AST). -/
inductive Stmt where
  | Expression (e : ExprRef)
  | Val (name : Nat) (type_decl : Option TypeDecl) (e : ExprRef)
  | Var (name : Nat) (type_decl : Option TypeDecl) (e : Option ExprRef)
  | Return (e : Option ExprRef)
  | For (init : Nat) (cond range body : ExprRef)
  | While (cond body : ExprRef)
  | Break
  | Continue
  | StructDecl (name : String) (fields : List StructField)
  | ImplBlock (target_type : String) (methods : List MethodFunction)
deriving DecidableEq, Repr

/-- Modelled from the spec: the append-only expression arena (`ExprPool`,
spec section 4.3); `get` is index lookup and in-place rewriting is `List.set`
at the same index. -/
abbrev ExprPool := List Expr

/-- Modelled from the spec: the statement arena (`StmtPool`). -/
abbrev StmtPool := List Stmt

/-- Modelled from the spec: the interner resolves a symbol to its string
(spec section 4.3); symbols are indices into the interned-string table. -/
def resolveSym (interner : List String) (sym : Nat) : Option String :=
  interner.get? sym

/-- Value of a decimal digit list, `none` if empty or a non-digit occurs
(the digit accumulation of Rust integer parsing). -/
def digitsVal (cs : List Char) : Option Nat :=
  if cs.isEmpty then none
  else cs.foldl (fun acc d => acc.bind fun a =>
    if d.isDigit then some (a * 10 + (d.toNat - 48)) else none) (some 0)

/-- Host constant `i64::MAX`. -/
def i64Max : Int := 2 ^ 63 - 1

/-- Host constant `i64::MIN`. -/
def i64Min : Int := -(2 ^ 63)

/-- Host constant `u64::MAX`. -/
def u64Max : Nat := 2 ^ 64 - 1

/-- Rust `str::parse::<u64>`: optional leading plus, a nonempty digit run,
value within the u64 range. -/
def parseU64 (s : String) : Option Nat :=
  let body := match s.data with
    | '+' :: cs => digitsVal cs
    | cs => digitsVal cs
  body.bind fun v => if v ≤ u64Max then some v else none

/-- Rust `str::parse::<i64>`: optional sign, a nonempty digit run, value
within the i64 range. -/
def parseI64 (s : String) : Option Int :=
  match s.data with
  | '-' :: cs => (digitsVal cs).bind fun v =>
      if (-(v : Int)) ≥ i64Min then some (-(v : Int)) else none
  | '+' :: cs => (digitsVal cs).bind fun v =>
      if (v : Int) ≤ i64Max then some (v : Int) else none
  | cs => (digitsVal cs).bind fun v =>
      if (v : Int) ≤ i64Max then some (v : Int) else none

/-- Error kinds of the checker (`TypeCheckErrorKind` in
`type_checker/error.rs`). -/
inductive TypeCheckErrorKind where
  | TypeMismatch (expected actual : TypeDecl)
  | TypeMismatchOperation (operation : String) (left right : TypeDecl)
  | NotFound (item_type name : String)
  | UnsupportedOperation (operation : String) (type_name : TypeDecl)
  | ConversionError (from_ to_ : String)
  | ArrayError (message : String)
  | MethodError (method : String) (type_name : TypeDecl) (reason : String)
  | InvalidLiteral (value expected_type : String)
  | GenericError (message : String)
deriving DecidableEq, Repr

/-- A checker error: a kind with an optional context note.  The source also
carries an optional `SourceLocation` filled from the location pool when an
error first surfaces; locations do not affect control flow and are not
modelled. -/
structure TypeCheckError where
  kind : TypeCheckErrorKind
  context : Option String
deriving DecidableEq, Repr

namespace TypeCheckError

def type_mismatch (expected actual : TypeDecl) : TypeCheckError :=
  ⟨.TypeMismatch expected actual, none⟩

def type_mismatch_operation (operation : String) (left right : TypeDecl) : TypeCheckError :=
  ⟨.TypeMismatchOperation operation left right, none⟩

def not_found (item_type name : String) : TypeCheckError :=
  ⟨.NotFound item_type name, none⟩

def unsupported_operation (operation : String) (type_name : TypeDecl) : TypeCheckError :=
  ⟨.UnsupportedOperation operation type_name, none⟩

def conversion_error (from_ to_ : String) : TypeCheckError :=
  ⟨.ConversionError from_ to_, none⟩

def array_error (message : String) : TypeCheckError :=
  ⟨.ArrayError message, none⟩

def method_error (method : String) (type_name : TypeDecl) (reason : String) : TypeCheckError :=
  ⟨.MethodError method type_name reason, none⟩

def invalid_literal (value expected_type : String) : TypeCheckError :=
  ⟨.InvalidLiteral value expected_type, none⟩

def generic_error (message : String) : TypeCheckError :=
  ⟨.GenericError message, none⟩

def with_context (e : TypeCheckError) (context : String) : TypeCheckError :=
  { e with context := some context }

end TypeCheckError


/-! ## Association-list maps

Modelled from the spec: the checker's `HashMap`s (scope frames, function
table, recursion guard, cache) are embedded as association lists with
insert-or-replace, lookup and remove. -/

/-- Lookup in an association list (first match). -/
def lookupA {κ α : Type} [DecidableEq κ] : List (κ × α) → κ → Option α
  | [], _ => none
  | (k, v) :: rest, key => if k = key then some v else lookupA rest key

/-- Insert-or-replace in an association list (`HashMap::insert`). -/
def upsertA {κ α : Type} [DecidableEq κ] : List (κ × α) → κ → α → List (κ × α)
  | [], key, value => [(key, value)]
  | (k, v) :: rest, key, value =>
    if k = key then (key, value) :: rest else (k, v) :: upsertA rest key value

/-- Remove a key from an association list (`HashMap::remove`). -/
def removeA {κ α : Type} [DecidableEq κ] : List (κ × α) → κ → List (κ × α)
  | [], _ => []
  | (k, v) :: rest, key =>
    if k = key then rest else (k, v) :: removeA rest key

/-! ## Checker state

The five state bundles of `TypeCheckerVisitor` (spec section 4.1.1); the
module files `core.rs`, `context.rs`, `inference.rs`, `function.rs` and
`optimization.rs` are not under src/, so the bundles and their small map
operations are modelled from the spec. -/

/-- Pools and interner (`CoreReferences`); only the expression pool is
mutated (in-place `Number` rewriting). -/
structure CoreReferences where
  stmt_pool : StmtPool
  expr_pool : ExprPool
  string_interner : List String
deriving DecidableEq, Repr

/-- Modelled from the spec: scope frames (innermost first) and the function
table (`TypeCheckContext`). -/
structure TypeCheckContext where
  vars : List (List (Nat × TypeDecl))
  functions : List (Nat × Function)
deriving DecidableEq, Repr

/-- The bidirectional-inference state (`TypeInferenceState`). -/
structure TypeInferenceState where
  type_hint : Option TypeDecl
  variable_expr_mapping : List (Nat × ExprRef)
  number_usage_context : List (ExprRef × TypeDecl)
deriving DecidableEq, Repr

/-- The recursion guard (`FunctionCheckingState`): `some (some ty)` is done,
`some none` is in progress, `none` (absent key) is not seen. -/
structure FunctionCheckingState where
  is_checked_fn : List (Nat × Option TypeDecl)
  call_depth : Nat
deriving DecidableEq, Repr

/-- The per-function/per-block type cache (`PerformanceOptimization`). -/
structure PerformanceOptimization where
  type_cache : List (ExprRef × TypeDecl)
deriving DecidableEq, Repr

/-- The stateful checker visitor (`TypeCheckerVisitor`). -/
structure TypeCheckerVisitor where
  core : CoreReferences
  context : TypeCheckContext
  type_inference : TypeInferenceState
  function_checking : FunctionCheckingState
  optimization : PerformanceOptimization
deriving DecidableEq, Repr

/-- Modelled from the spec: bind a variable type in the innermost frame
(`TypeCheckContext::set_var`). -/
def TypeCheckContext.set_var (ctx : TypeCheckContext) (name : Nat) (ty : TypeDecl) : TypeCheckContext :=
  match ctx.vars with
  | [] => { ctx with vars := [[(name, ty)]] }
  | f :: rest => { ctx with vars := upsertA f name ty :: rest }

/-- Modelled from the spec: variable lookup walks frames innermost-out. -/
def lookupFrames : List (List (Nat × TypeDecl)) → Nat → Option TypeDecl
  | [], _ => none
  | f :: rest, name =>
    match lookupA f name with
    | some ty => some ty
    | none => lookupFrames rest name

/-- Modelled from the spec: `TypeCheckContext::get_var`. -/
def TypeCheckContext.get_var (ctx : TypeCheckContext) (name : Nat) : Option TypeDecl :=
  lookupFrames ctx.vars name

/-- Modelled from the spec: update a variable's recorded type in the nearest
frame that binds it (`TypeCheckContext::update_var_type`). -/
def updateFrames : List (List (Nat × TypeDecl)) → Nat → TypeDecl → List (List (Nat × TypeDecl))
  | [], _, _ => []
  | f :: rest, name, ty =>
    match lookupA f name with
    | some _ => upsertA f name ty :: rest
    | none => f :: updateFrames rest name ty

/-- Modelled from the spec: `TypeCheckContext::update_var_type`. -/
def TypeCheckContext.update_var_type (ctx : TypeCheckContext) (name : Nat) (ty : TypeDecl) : TypeCheckContext :=
  { ctx with vars := updateFrames ctx.vars name ty }

/-- Modelled from the spec: `TypeCheckContext::set_fn`. -/
def TypeCheckContext.set_fn (ctx : TypeCheckContext) (name : Nat) (f : Function) : TypeCheckContext :=
  { ctx with functions := upsertA ctx.functions name f }

/-- Modelled from the spec: `TypeCheckContext::get_fn`. -/
def TypeCheckContext.get_fn (ctx : TypeCheckContext) (name : Nat) : Option Function :=
  lookupA ctx.functions name

/-- Embeds `TypeCheckerVisitor::push_context`: push a fresh scope frame. -/
def push_context (st : TypeCheckerVisitor) : TypeCheckerVisitor :=
  { st with context := { st.context with vars := [] :: st.context.vars } }

/-- Embeds `TypeCheckerVisitor::pop_context`: drop the innermost scope frame. -/
def pop_context (st : TypeCheckerVisitor) : TypeCheckerVisitor :=
  { st with context := { st.context with vars := st.context.vars.tail } }

/-- Embeds `TypeCheckerVisitor::add_function`: register a function. -/
def add_function (st : TypeCheckerVisitor) (f : Function) : TypeCheckerVisitor :=
  { st with context := st.context.set_fn f.name f }

/-- Pool access `self.core.expr_pool.get(expr_ref.to_index())`. -/
def lookupExpr (st : TypeCheckerVisitor) (r : ExprRef) : Option Expr :=
  st.core.expr_pool.get? r.idx

/-- Pool access `self.core.stmt_pool.get(stmt_ref.to_index())`. -/
def lookupStmt (st : TypeCheckerVisitor) (r : StmtRef) : Option Stmt :=
  st.core.stmt_pool.get? r.idx

/-- In-place write at a pool index (`ExprPool::get_mut` plus assignment). -/
def setExprAt (st : TypeCheckerVisitor) (i : Nat) (e : Expr) : TypeCheckerVisitor :=
  { st with core := { st.core with expr_pool := st.core.expr_pool.set i e } }

/-- Replace the current type hint. -/
def setHint (st : TypeCheckerVisitor) (h : Option TypeDecl) : TypeCheckerVisitor :=
  { st with type_inference := { st.type_inference with type_hint := h } }

/-- Append one entry to `number_usage_context`. -/
def pushUsage (st : TypeCheckerVisitor) (r : ExprRef) (ty : TypeDecl) : TypeCheckerVisitor :=
  { st with type_inference := { st.type_inference with
      number_usage_context := st.type_inference.number_usage_context ++ [(r, ty)] } }

/-- Embeds `TypeCheckerVisitor::get_cached_type`. -/
def get_cached_type (st : TypeCheckerVisitor) (r : ExprRef) : Option TypeDecl :=
  lookupA st.optimization.type_cache r

/-- Embeds `TypeCheckerVisitor::cache_type`. -/
def cache_type (st : TypeCheckerVisitor) (r : ExprRef) (ty : TypeDecl) : TypeCheckerVisitor :=
  { st with optimization := { st.optimization with
      type_cache := upsertA st.optimization.type_cache r ty } }

/-- Clear the type cache (function and block boundaries). -/
def clear_type_cache (st : TypeCheckerVisitor) : TypeCheckerVisitor :=
  { st with optimization := { st.optimization with type_cache := [] } }

/-! ## Pure checker helpers (`impl TypeCheckerVisitor`, second block) -/

/-- Embeds `resolve_numeric_types`: automatic conversion for the `Number` type over
an operand pair, consulting the active type hint for the double-`Number`
case (type_checker.rs lines 1301-1342). -/
def resolve_numeric_types (st : TypeCheckerVisitor) (lhs_ty rhs_ty : TypeDecl) :
    Except TypeCheckError (TypeDecl × TypeDecl) :=
  match lhs_ty, rhs_ty with
  | .UInt64, .UInt64 => .ok (.UInt64, .UInt64)
  | .Int64, .Int64 => .ok (.Int64, .Int64)
  | .Bool, .Bool => .ok (.Bool, .Bool)
  | .String, .String => .ok (.String, .String)
  | .Number, .UInt64 => .ok (.UInt64, .UInt64)
  | .UInt64, .Number => .ok (.UInt64, .UInt64)
  | .Number, .Int64 => .ok (.Int64, .Int64)
  | .Int64, .Number => .ok (.Int64, .Int64)
  | .Number, .Number =>
    match st.type_inference.type_hint with
    | some .Int64 => .ok (.Int64, .Int64)
    | some .UInt64 => .ok (.UInt64, .UInt64)
    | some _ => .ok (.UInt64, .UInt64)
    | none => .ok (.UInt64, .UInt64)
  | .UInt64, .Int64 =>
    .error (TypeCheckError.type_mismatch_operation "mixed signed/unsigned" .UInt64 .Int64)
  | .Int64, .UInt64 =>
    .error (TypeCheckError.type_mismatch_operation "mixed signed/unsigned" .Int64 .UInt64)
  | _, _ =>
    if lhs_ty = rhs_ty then .ok (lhs_ty, rhs_ty)
    else .error (TypeCheckError.type_mismatch lhs_ty rhs_ty)

/-- Embeds `transform_numeric_expr`: rewrite an `Expr::Number` node in place to the
concrete integer variant of `target_type`, parsing the interned digit string
(type_checker.rs lines 1102-1130).  A non-`Number` node (or a dangling ref)
is left untouched. -/
def transform_numeric_expr (st : TypeCheckerVisitor) (expr_ref : ExprRef) (target_type : TypeDecl) :
    Except TypeCheckError TypeCheckerVisitor :=
  match lookupExpr st expr_ref with
  | some (Expr.Number value) =>
    match resolveSym st.core.string_interner value with
    | none => .error (TypeCheckError.generic_error "Failed to resolve number literal")
    | some num_str =>
      match target_type with
      | TypeDecl.UInt64 =>
        match parseU64 num_str with
        | some v => .ok (setExprAt st expr_ref.idx (Expr.UInt64 v))
        | none => .error (TypeCheckError.conversion_error num_str "UInt64")
      | TypeDecl.Int64 =>
        match parseI64 num_str with
        | some v => .ok (setExprAt st expr_ref.idx (Expr.Int64 v))
        | none => .error (TypeCheckError.conversion_error num_str "Int64")
      | _ => .error (TypeCheckError.unsupported_operation "transform" target_type)
  | _ => .ok st

/-- Embeds `has_number_in_expr`: only direct `Number` literals are recognized. -/
def has_number_in_expr (st : TypeCheckerVisitor) (r : ExprRef) : Bool :=
  match lookupExpr st r with
  | some (Expr.Number _) => true
  | _ => false

/-- Embeds `is_number_for_variable`: the recorded mapping of the variable is
exactly this `Number` expression. -/
def is_number_for_variable (st : TypeCheckerVisitor) (var_name : Nat) (number_expr_ref : ExprRef) : Bool :=
  match lookupA st.type_inference.variable_expr_mapping var_name with
  | some mapped => mapped = number_expr_ref
  | none => false

/-- Embeds `is_old_number_for_variable`: conservatively true for any ref that still
holds a `Number` node (used when cleaning stale usage-context entries). -/
def is_old_number_for_variable (st : TypeCheckerVisitor) (number_expr_ref : ExprRef) : Bool :=
  match lookupExpr st number_expr_ref with
  | some (Expr.Number _) => true
  | _ => false

/-- Embeds `update_variable_expr_mapping`: record (or clean up) which expression
produced a variable's value (type_checker.rs lines 1034-1058). -/
def update_variable_expr_mapping (st : TypeCheckerVisitor) (name : Nat) (expr_ref : ExprRef) (expr_ty : TypeDecl) :
    TypeCheckerVisitor :=
  if expr_ty = .Number ∨ (expr_ty ≠ .Number ∧ has_number_in_expr st expr_ref) then
    { st with type_inference := { st.type_inference with
        variable_expr_mapping := upsertA st.type_inference.variable_expr_mapping name expr_ref } }
  else
    { st with type_inference := { st.type_inference with
        variable_expr_mapping := removeA st.type_inference.variable_expr_mapping name,
        number_usage_context := st.type_inference.number_usage_context.filter
          (fun p => !(is_old_number_for_variable st p.1)) } }

/-- Embeds `update_identifier_types`: when an identifier's `Number` type was
resolved, update the variable's type in scope (the source signature returns
`Result` but never errs). -/
def update_identifier_types (st : TypeCheckerVisitor) (expr_ref : ExprRef) (original_ty resolved_ty : TypeDecl) :
    TypeCheckerVisitor :=
  if original_ty = .Number ∧ resolved_ty ≠ .Number then
    match lookupExpr st expr_ref with
    | some (Expr.Identifier name) =>
      { st with context := st.context.update_var_type name resolved_ty }
    | _ => st
  else st

/-- Embeds `record_number_usage_context`: remember the resolved type of a `Number`
literal (directly, or via the variable it was bound to, scanning the whole
pool for that variable's `Number` node). -/
def record_number_usage_context (st : TypeCheckerVisitor) (expr_ref : ExprRef) (original_ty resolved_ty : TypeDecl) :
    TypeCheckerVisitor :=
  if original_ty = .Number ∧ resolved_ty ≠ .Number then
    match lookupExpr st expr_ref with
    | some (Expr.Identifier name) =>
      let hits := (List.range st.core.expr_pool.length).filter (fun i =>
        (match st.core.expr_pool.get? i with
         | some (Expr.Number _) => true
         | _ => false) && is_number_for_variable st name ⟨i⟩)
      { st with type_inference := { st.type_inference with
          number_usage_context := st.type_inference.number_usage_context ++
            hits.map (fun i => (ExprRef.mk i, resolved_ty)) } }
    | some (Expr.Number _) => pushUsage st expr_ref resolved_ty
    | _ => st
  else st

/-- Embeds `propagate_to_number_variable`: when the sibling operand is concrete,
record that type for the `Number` variable's source expression and update the
variable's type (the source signature returns `Result` but never errs). -/
def propagate_to_number_variable (st : TypeCheckerVisitor) (expr_ref : ExprRef) (target_type : TypeDecl) :
    TypeCheckerVisitor :=
  match lookupExpr st expr_ref with
  | some (Expr.Identifier name) =>
    match st.context.get_var name with
    | some vt =>
      if vt = .Number then
        (List.range st.core.expr_pool.length).foldl (fun acc i =>
          if (match acc.core.expr_pool.get? i with
              | some (Expr.Number _) => true
              | _ => false) && is_number_for_variable acc name ⟨i⟩ then
            { pushUsage acc ⟨i⟩ target_type with
                context := (pushUsage acc ⟨i⟩ target_type).context.update_var_type name target_type }
          else acc) st
      else st
    | none => st
  | _ => st

/-- Embeds `propagate_type_to_number_expr`: push the hinted type onto a `Number`
expression or the `Number` variable it denotes (type_checker.rs lines
1345-1370). -/
def propagate_type_to_number_expr (st : TypeCheckerVisitor) (expr_ref : ExprRef) (target_type : TypeDecl) :
    TypeCheckerVisitor :=
  match lookupExpr st expr_ref with
  | some (Expr.Identifier name) =>
    match st.context.get_var name with
    | some vt =>
      if vt = .Number then
        let st1 := { st with context := st.context.update_var_type name target_type }
        match lookupA st1.type_inference.variable_expr_mapping name with
        | some mapped => pushUsage st1 mapped target_type
        | none => st1
      else st
    | none => st
  | some (Expr.Number _) => pushUsage st expr_ref target_type
  | _ => st

/-- Embeds `setup_type_hint_for_val`: install the declared type as hint (arrays
only when the element list is nonempty; `Unknown`/`Number` never), returning
the previous hint. -/
def setup_type_hint_for_val (st : TypeCheckerVisitor) (type_decl : Option TypeDecl) :
    Option TypeDecl × TypeCheckerVisitor :=
  let old_hint := st.type_inference.type_hint
  match type_decl with
  | some (TypeDecl.Array ets n) =>
    if ets ≠ [] then (old_hint, setHint st (some (.Array ets n))) else (old_hint, st)
  | some decl =>
    if decl ≠ .Unknown ∧ decl ≠ .Number then (old_hint, setHint st (some decl)) else (old_hint, st)
  | none => (old_hint, st)

/-- Embeds `apply_type_transformations`: the rewrite decisions of `visit_val`
(type_checker.rs lines 1061-1089). -/
def apply_type_transformations (st : TypeCheckerVisitor) (type_decl : Option TypeDecl) (expr_ty : TypeDecl)
    (expr_ref : ExprRef) : Except TypeCheckError TypeCheckerVisitor :=
  if type_decl = none ∧ expr_ty = .Number then
    match st.type_inference.type_hint with
    | some h => if h = .Int64 ∨ h = .UInt64 then transform_numeric_expr st expr_ref h else .ok st
    | none => .ok st
  else if type_decl = some .Unknown ∧ expr_ty = .Int64 then
    match st.type_inference.type_hint with
    | some h => if h = .Int64 ∨ h = .UInt64 then transform_numeric_expr st expr_ref h else .ok st
    | none => .ok st
  else
    match type_decl with
    | some decl =>
      if decl ≠ .Unknown ∧ decl ≠ .Number ∧ expr_ty = decl then
        match lookupExpr st expr_ref with
        | some (Expr.Number _) => transform_numeric_expr st expr_ref decl
        | _ => .ok st
      else .ok st
    | none => .ok st

/-- Embeds `determine_final_type`: declared type wins when concrete, otherwise the
inferred expression type. -/
def determine_final_type (type_decl : Option TypeDecl) (expr_ty : TypeDecl) : TypeDecl :=
  match type_decl with
  | some .Unknown => expr_ty
  | some decl => if decl ≠ .Unknown ∧ decl ≠ .Number then decl else expr_ty
  | none => expr_ty

/-- The per-entry variable-type synchronization loops of
`finalize_number_types`: every variable whose recorded source expression is
this ref gets the target type. -/
def update_vars_mapped_to (st : TypeCheckerVisitor) (expr_ref : ExprRef) (ty : TypeDecl) : TypeCheckerVisitor :=
  let c := st.type_inference.variable_expr_mapping.foldl
    (fun c p => if p.2 = expr_ref then c.update_var_type p.1 ty else c) st.context
  { st with context := c }

/-- Second-pass target search of `finalize_number_types`: the first mapped
variable with a concrete (non-`Number`) recorded type, if any. -/
def find_mapped_target (st : TypeCheckerVisitor) (expr_ref : ExprRef) : List (Nat × ExprRef) → Option TypeDecl
  | [] => none
  | (var_name, mapped) :: rest =>
    if mapped = expr_ref then
      match st.context.get_var var_name with
      | some vt => if vt ≠ .Number then some vt else find_mapped_target st expr_ref rest
      | none => find_mapped_target st expr_ref rest
    else find_mapped_target st expr_ref rest

/-- First pass of `finalize_number_types`: replay the recorded
`number_usage_context`, rewriting each still-`Number` node to its recorded
type and syncing mapped variables. -/
def finalize_first_pass (st : TypeCheckerVisitor) : List (ExprRef × TypeDecl) →
    Except TypeCheckError TypeCheckerVisitor
  | [] => .ok st
  | (r, ty) :: rest =>
    match lookupExpr st r with
    | some (Expr.Number _) =>
      match transform_numeric_expr st r ty with
      | .error e => .error e
      | .ok st1 => finalize_first_pass (update_vars_mapped_to st1 r ty) rest
    | _ => finalize_first_pass st rest

/-- Second pass of `finalize_number_types`: sweep the whole pool; any
remaining `Number` node not already covered by the recorded context is
rewritten to its mapped variable's type, else the current hint, else the
default `UInt64`. -/
def finalize_second_pass (context_info : List (ExprRef × TypeDecl)) (st : TypeCheckerVisitor) :
    List Nat → Except TypeCheckError TypeCheckerVisitor
  | [] => .ok st
  | i :: rest =>
    match st.core.expr_pool.get? i with
    | some (Expr.Number _) =>
      if context_info.any (fun p => p.1 = ExprRef.mk i) then
        finalize_second_pass context_info st rest
      else
        let target := (find_mapped_target st ⟨i⟩ st.type_inference.variable_expr_mapping).getD
          (st.type_inference.type_hint.getD .UInt64)
        match transform_numeric_expr st ⟨i⟩ target with
        | .error e => .error e
        | .ok st1 => finalize_second_pass context_info (update_vars_mapped_to st1 ⟨i⟩ target) rest
    | _ => finalize_second_pass context_info st rest

/-- Embeds `finalize_number_types` (type_checker.rs lines 1238-1297): the recorded
context first, then a sweep of every pool index. -/
def finalize_number_types (st : TypeCheckerVisitor) : Except TypeCheckError TypeCheckerVisitor :=
  let context_info := st.type_inference.number_usage_context
  match finalize_first_pass st context_info with
  | .error e => .error e
  | .ok st1 => finalize_second_pass context_info st1 (List.range st1.core.expr_pool.length)

/-- The pre-scan shared by `type_check` and `visit_block`: the first val/var
statement with an explicit `Int64`/`UInt64` annotation fixes the block-wide
numeric hint. -/
def prescan_global_numeric_type (spool : StmtPool) : List StmtRef → Option TypeDecl
  | [] => none
  | s :: rest =>
    match spool.get? s.idx with
    | some (Stmt.Val _ (some td) _) =>
      if td = .Int64 ∨ td = .UInt64 then some td else prescan_global_numeric_type spool rest
    | some (Stmt.Var _ (some td) _) =>
      if td = .Int64 ∨ td = .UInt64 then some td else prescan_global_numeric_type spool rest
    | _ => prescan_global_numeric_type spool rest

/-! ## Non-recursive visitor methods and small helpers -/

/-- Fuel exhaustion: stands for the host call stack overflowing; the Rust
original has no such bound and would abort, so `ok` results coincide. -/
def recursionLimitError : TypeCheckError :=
  TypeCheckError.generic_error "recursion limit reached"

/-- Embeds `visit_identifier`: a bound variable's type, else a function's declared
return type, else a NotFound error. -/
def visit_identifier (st : TypeCheckerVisitor) (name : Nat) :
    Except TypeCheckError (TypeDecl × TypeCheckerVisitor) :=
  match st.context.get_var name with
  | some val_type => .ok (val_type, st)
  | none =>
    match st.context.get_fn name with
    | some f => .ok (f.return_type.getD .Unknown, st)
    | none =>
      .error (TypeCheckError.not_found "Identifier"
        ((resolveSym st.core.string_interner name).getD "<NOT_FOUND>"))

/-- Embeds `visit_int64_literal`. -/
def visit_int64_literal (st : TypeCheckerVisitor) (_value : Int) :
    Except TypeCheckError (TypeDecl × TypeCheckerVisitor) :=
  .ok (.Int64, st)

/-- Embeds `visit_uint64_literal`. -/
def visit_uint64_literal (st : TypeCheckerVisitor) (_value : Nat) :
    Except TypeCheckError (TypeDecl × TypeCheckerVisitor) :=
  .ok (.UInt64, st)

/-- Embeds `visit_string_literal`. -/
def visit_string_literal (st : TypeCheckerVisitor) (_value : Nat) :
    Except TypeCheckError (TypeDecl × TypeCheckerVisitor) :=
  .ok (.String, st)

/-- Embeds `visit_boolean_literal` (for both `True` and `False`). -/
def visit_boolean_literal (st : TypeCheckerVisitor) :
    Except TypeCheckError (TypeDecl × TypeCheckerVisitor) :=
  .ok (.Bool, st)

/-- Embeds `visit_null_literal`: `Null` has type `Any`. -/
def visit_null_literal (st : TypeCheckerVisitor) :
    Except TypeCheckError (TypeDecl × TypeCheckerVisitor) :=
  .ok (.Any, st)

/-- Embeds `visit_expr_list`: the argument container has type `Unit`. -/
def visit_expr_list (st : TypeCheckerVisitor) (_items : List ExprRef) :
    Except TypeCheckError (TypeDecl × TypeCheckerVisitor) :=
  .ok (.Unit, st)

/-- Embeds `visit_break`. -/
def visit_break (st : TypeCheckerVisitor) :
    Except TypeCheckError (TypeDecl × TypeCheckerVisitor) :=
  .ok (.Unit, st)

/-- Embeds `visit_continue`. -/
def visit_continue (st : TypeCheckerVisitor) :
    Except TypeCheckError (TypeDecl × TypeCheckerVisitor) :=
  .ok (.Unit, st)

/-- Embeds `visit_struct_decl`: every field type must be a plain scalar (the source
error message quotes the struct name; quoting is elided here). -/
def visit_struct_decl (st : TypeCheckerVisitor) (name : String) :
    List StructField → Except TypeCheckError (TypeDecl × TypeCheckerVisitor)
  | [] => .ok (.Unit, st)
  | f :: rest =>
    match f.type_decl with
    | .Int64 | .UInt64 | .Bool | .String => visit_struct_decl st name rest
    | bad => .error (TypeCheckError.unsupported_operation
        ("field type in struct " ++ name) bad)

/-- The parameter-type validation loop of `visit_impl_block`: first invalid
parameter type, if any. -/
def impl_bad_param : List (Nat × TypeDecl) → Option TypeDecl
  | [] => none
  | (_, t) :: rest =>
    match t with
    | .Int64 | .UInt64 | .Bool | .String => impl_bad_param rest
    | bad => some bad

/-- Embeds `visit_impl_block`: validate each method's parameter and return types
(the source error messages quote names; quoting is elided here). -/
def visit_impl_block (st : TypeCheckerVisitor) (target_type : String) :
    List MethodFunction → Except TypeCheckError (TypeDecl × TypeCheckerVisitor)
  | [] => .ok (.Unit, st)
  | m :: rest =>
    match impl_bad_param m.parameter with
    | some bad =>
      .error (TypeCheckError.unsupported_operation
        ("parameter type in method " ++
          ((resolveSym st.core.string_interner m.name).getD "<unknown>") ++
          " for impl block " ++ target_type) bad)
    | none =>
      match m.return_type with
      | some rt =>
        match rt with
        | .Int64 | .UInt64 | .Bool | .String | .Unit => visit_impl_block st target_type rest
        | bad =>
          .error (TypeCheckError.unsupported_operation
            ("return type in method " ++
              ((resolveSym st.core.string_interner m.name).getD "<unknown>") ++
              " for impl block " ++ target_type) bad)
      | none => visit_impl_block st target_type rest

/-- Embeds `visit_number_literal` (type_checker.rs lines 573-617): under an
`Int64`/`UInt64` hint the digit string is validated against that width
(failure is a ConversionError); otherwise a non-negative value fitting i64
stays `Number`, a negative one is `Int64`, and a value beyond i64 fitting
u64 is `UInt64`. -/
def visit_number_literal (st : TypeCheckerVisitor) (value : Nat) :
    Except TypeCheckError (TypeDecl × TypeCheckerVisitor) :=
  match resolveSym st.core.string_interner value with
  | none => .error (TypeCheckError.generic_error "Failed to resolve number literal")
  | some num_str =>
    match st.type_inference.type_hint with
    | some TypeDecl.Int64 =>
      match parseI64 num_str with
      | some _ => .ok (.Int64, st)
      | none => .error (TypeCheckError.conversion_error num_str "Int64")
    | some TypeDecl.UInt64 =>
      match parseU64 num_str with
      | some _ => .ok (.UInt64, st)
      | none => .error (TypeCheckError.conversion_error num_str "UInt64")
    | _ =>
      match parseI64 num_str with
      | some val =>
        if 0 ≤ val ∧ val ≤ i64Max then .ok (.Number, st) else .ok (.Int64, st)
      | none =>
        match parseU64 num_str with
        | some _ => .ok (.UInt64, st)
        | none => .error (TypeCheckError.invalid_literal num_str "number")

/-- The result-type match of `visit_binary` (type_checker.rs lines 345-375)
over the resolved operand types. -/
def binary_result_type (op : Operator) (l r : TypeDecl) : Except TypeCheckError TypeDecl :=
  if op = .IAdd ∧ l = .String ∧ r = .String then .ok .String
  else
    match op with
    | .IAdd | .ISub | .IDiv | .IMul =>
      if l = .UInt64 ∧ r = .UInt64 then .ok .UInt64
      else if l = .Int64 ∧ r = .Int64 then .ok .Int64
      else .error (TypeCheckError.type_mismatch_operation "arithmetic" l r)
    | .LE | .LT | .GE | .GT | .EQ | .NE =>
      if (l = .UInt64 ∨ l = .Int64) ∧ (r = .UInt64 ∨ r = .Int64) then .ok .Bool
      else if l = .Bool ∧ r = .Bool then .ok .Bool
      else .error (TypeCheckError.type_mismatch_operation "comparison" l r)
    | .LogicalAnd | .LogicalOr =>
      if l = .Bool ∧ r = .Bool then .ok .Bool
      else .error (TypeCheckError.type_mismatch_operation "logical" l r)

/-- The result computation of `visit_if_elif_else` over the collected
non-empty branch types: none collected means `Unit`, all equal means that
type, any difference means `Unit`. -/
def if_elif_else_result : List TypeDecl → TypeDecl
  | [] => .Unit
  | first :: rest => if rest.all (fun t => t == first) then first else .Unit

/-- Embeds `type_check`: extract the body's statement list through
`Stmt::Expression` around `Expr::Block`. -/
def get_function_body_statements (st : TypeCheckerVisitor) (func : Function) :
    Except TypeCheckError (List StmtRef) :=
  match lookupStmt st func.code with
  | none => .error (TypeCheckError.generic_error "Invalid statement reference")
  | some (Stmt.Expression e) =>
    match lookupExpr st e with
    | none => .error (TypeCheckError.generic_error "Invalid expression reference")
    | some (Expr.Block statements) => .ok statements
    | some _ => .error (TypeCheckError.generic_error "type_check: expected block expression")
  | some _ => .error (TypeCheckError.generic_error "type_check: expected block statement")

/-- Record a function's final type in the recursion guard. -/
def mark_checked (st : TypeCheckerVisitor) (name : Nat) (ty : TypeDecl) : TypeCheckerVisitor :=
  { st with function_checking := { st.function_checking with
      is_checked_fn := upsertA st.function_checking.is_checked_fn name (some ty) } }

/-- The per-element processing loop of `visit_array_literal` under an array
type hint: `Number` elements are rewritten to the expected element type,
`Unknown` elements are inferred as it, signedness mixes are rejected (the
source messages interpolate indices and types; elided here). -/
def array_apply_hint (st : TypeCheckerVisitor) (expected : TypeDecl) :
    List ExprRef → List TypeDecl → Except TypeCheckError (List TypeDecl × TypeCheckerVisitor)
  | [], _ => .ok ([], st)
  | _ :: _, [] => .ok ([], st)
  | e :: es, t :: ts =>
    match t with
    | .Number =>
      match transform_numeric_expr st e expected with
      | .error err => .error err
      | .ok st1 =>
        match array_apply_hint st1 expected es ts with
        | .error err => .error err
        | .ok (tys, st2) => .ok (expected :: tys, st2)
    | _ =>
      if t = expected then
        match lookupExpr st e with
        | some (Expr.Number _) =>
          match transform_numeric_expr st e expected with
          | .error err => .error err
          | .ok st1 =>
            match array_apply_hint st1 expected es ts with
            | .error err => .error err
            | .ok (tys, st2) => .ok (t :: tys, st2)
        | _ =>
          match array_apply_hint st expected es ts with
          | .error err => .error err
          | .ok (tys, st2) => .ok (t :: tys, st2)
      else
        match t with
        | .Unknown =>
          match array_apply_hint st expected es ts with
          | .error err => .error err
          | .ok (tys, st2) => .ok (expected :: tys, st2)
        | _ =>
          match t, expected with
          | .Int64, .UInt64 =>
            .error (TypeCheckError.array_error "Cannot mix signed and unsigned integers in array")
          | .UInt64, .Int64 =>
            .error (TypeCheckError.array_error "Cannot mix signed and unsigned integers in array")
          | _, _ =>
            if t = expected then
              match array_apply_hint st expected es ts with
              | .error err => .error err
              | .ok (tys, st2) => .ok (t :: tys, st2)
            else .error (TypeCheckError.array_error "Array element has unexpected type")

/-- The closing uniformity check of `visit_array_literal`: all element types
must equal the first (the source message interpolates the index; elided). -/
def array_finish (st : TypeCheckerVisitor) (tys : List TypeDecl) (n : Nat) :
    Except TypeCheckError (TypeDecl × TypeCheckerVisitor) :=
  match tys with
  | [] => .error (TypeCheckError.array_error "Empty array literals are not supported")
  | first :: rest =>
    if rest.all (fun t => t == first) then .ok (.Array tys n, st)
    else .error (TypeCheckError.array_error "Array elements must have the same type")

/-! ## The recursive visitor (`AstVisitor for TypeCheckerVisitor`)

Every function takes a fuel argument decremented on each call; fuel
exhaustion is `recursionLimitError` (see above). -/

set_option maxHeartbeats 2000000 in
mutual

/-- Embeds `visit_expr` (type_checker.rs lines 246-280): cache lookup, dispatch,
result caching, and sibling hint propagation for concrete numeric results. -/
def visit_expr : Nat → TypeCheckerVisitor → ExprRef →
    Except TypeCheckError (TypeDecl × TypeCheckerVisitor)
  | 0, _, _ => .error recursionLimitError
  | fuel + 1, st, e =>
    match get_cached_type st e with
    | some cached => .ok (cached, st)
    | none =>
      let original_hint := st.type_inference.type_hint
      match lookupExpr st e with
      | none => .error (TypeCheckError.generic_error "Invalid expression reference")
      | some expr_obj =>
        match accept_expr fuel st expr_obj with
        | .error err => .error err
        | .ok (result_type, st1) =>
          let st2 := cache_type st1 e result_type
          let st3 :=
            if original_hint = none ∧ (result_type = .Int64 ∨ result_type = .UInt64) then
              if st2.type_inference.type_hint = none then setHint st2 (some result_type) else st2
            else st2
          .ok (result_type, st3)

termination_by structural a1 _ _ => a1

/-- Embeds `Acceptable for Expr`: dispatch on the node (type_checker.rs lines
203-226). -/
def accept_expr : Nat → TypeCheckerVisitor → Expr →
    Except TypeCheckError (TypeDecl × TypeCheckerVisitor)
  | 0, _, _ => .error recursionLimitError
  | fuel + 1, st, x =>
    match x with
    | .Binary op lhs rhs => visit_binary fuel st op lhs rhs
    | .Block statements => visit_block fuel st statements
    | .IfElifElse cond then_blk elif_pairs else_blk =>
      visit_if_elif_else fuel st cond then_blk elif_pairs else_blk
    | .Assign lhs rhs => visit_assign fuel st lhs rhs
    | .Identifier name => visit_identifier st name
    | .Call fn_name args => visit_call fuel st fn_name args
    | .Int64 v => visit_int64_literal st v
    | .UInt64 v => visit_uint64_literal st v
    | .Number v => visit_number_literal st v
    | .String v => visit_string_literal st v
    | .True => visit_boolean_literal st
    | .False => visit_boolean_literal st
    | .Null => visit_null_literal st
    | .ExprList items => visit_expr_list st items
    | .ArrayLiteral elements => visit_array_literal fuel st elements
    | .ArrayAccess array index => visit_array_access fuel st array index
    | .FieldAccess obj field => visit_field_access fuel st obj field
    | .MethodCall obj method args => visit_method_call fuel st obj method args
    | .StructLiteral struct_name fields => visit_struct_literal fuel st struct_name fields

termination_by structural a1 _ _ => a1

/-- Embeds `visit_stmt`: fetch and dispatch (a dangling ref degrades to `Break`,
as in the source's `unwrap_or(&Stmt::Break)`). -/
def visit_stmt : Nat → TypeCheckerVisitor → StmtRef →
    Except TypeCheckError (TypeDecl × TypeCheckerVisitor)
  | 0, _, _ => .error recursionLimitError
  | fuel + 1, st, s =>
    match lookupStmt st s with
    | none => accept_stmt fuel st Stmt.Break
    | some stmt => accept_stmt fuel st stmt

/-- Embeds `Acceptable for Stmt`: dispatch on the statement (type_checker.rs lines
228-243). -/
def accept_stmt : Nat → TypeCheckerVisitor → Stmt →
    Except TypeCheckError (TypeDecl × TypeCheckerVisitor)
  | 0, _, _ => .error recursionLimitError
  | fuel + 1, st, s =>
    match s with
    | .Expression e => visit_expression_stmt fuel st e
    | .Var name td e => visit_var fuel st name td e
    | .Val name td e => visit_val fuel st name td e
    | .Return e => visit_return fuel st e
    | .For init cond range body => visit_for fuel st init cond range body
    | .While cond body => visit_while fuel st cond body
    | .Break => visit_break st
    | .Continue => visit_continue st
    | .StructDecl name fields => visit_struct_decl st name fields
    | .ImplBlock target_type methods => visit_impl_block st target_type methods

termination_by structural a1 _ _ => a1

/-- Embeds `visit_binary` (type_checker.rs lines 295-378): operand typing, pair
resolution, hint propagation, usage recording, in-place transforms, and the
operator result type. -/
def visit_binary : Nat → TypeCheckerVisitor → Operator → ExprRef → ExprRef →
    Except TypeCheckError (TypeDecl × TypeCheckerVisitor)
  | 0, _, _, _, _ => .error recursionLimitError
  | fuel + 1, st, op, lhs, rhs =>
    match lookupExpr st lhs with
    | none => .error (TypeCheckError.generic_error "Invalid left-hand expression reference")
    | some lhs_obj =>
      match accept_expr fuel st lhs_obj with
      | .error e => .error e
      | .ok (lhs_ty, st1) =>
        match lookupExpr st1 rhs with
        | none => .error (TypeCheckError.generic_error "Invalid right-hand expression reference")
        | some rhs_obj =>
          match accept_expr fuel st1 rhs_obj with
          | .error e => .error e
          | .ok (rhs_ty, st2) =>
            match resolve_numeric_types st2 lhs_ty rhs_ty with
            | .error e => .error e
            | .ok (resolved_lhs_ty, resolved_rhs_ty) =>
              let st3 :=
                match st2.type_inference.type_hint with
                | some hint =>
                  let sA :=
                    if lhs_ty = .Number ∧ (hint = .Int64 ∨ hint = .UInt64) then
                      propagate_type_to_number_expr st2 lhs hint
                    else st2
                  if rhs_ty = .Number ∧ (hint = .Int64 ∨ hint = .UInt64) then
                    propagate_type_to_number_expr sA rhs hint
                  else sA
                | none => st2
              let st4 := record_number_usage_context st3 lhs lhs_ty resolved_lhs_ty
              let st5 := record_number_usage_context st4 rhs rhs_ty resolved_rhs_ty
              let st6 :=
                if resolved_lhs_ty ≠ .Number ∧ rhs_ty = .Number then
                  propagate_to_number_variable st5 rhs resolved_lhs_ty
                else st5
              let st7 :=
                if resolved_rhs_ty ≠ .Number ∧ lhs_ty = .Number then
                  propagate_to_number_variable st6 lhs resolved_rhs_ty
                else st6
              match (if lhs_ty = .Number ∧ resolved_lhs_ty ≠ .Number then
                       transform_numeric_expr st7 lhs resolved_lhs_ty
                     else .ok st7) with
              | .error e => .error e
              | .ok st8 =>
                match (if rhs_ty = .Number ∧ resolved_rhs_ty ≠ .Number then
                         transform_numeric_expr st8 rhs resolved_rhs_ty
                       else .ok st8) with
                | .error e => .error e
                | .ok st9 =>
                  let st10 := update_identifier_types st9 lhs lhs_ty resolved_lhs_ty
                  let st11 := update_identifier_types st10 rhs rhs_ty resolved_rhs_ty
                  match binary_result_type op resolved_lhs_ty resolved_rhs_ty with
                  | .error e => .error e
                  | .ok result_type => .ok (result_type, st11)

termination_by structural a1 _ _ _ _ => a1

/-- Embeds `visit_block` (type_checker.rs lines 380-456): cache clearing, the
numeric-annotation pre-scan setting the block-wide hint, the statement loop,
hint restoration, and the empty-block error. -/
def visit_block : Nat → TypeCheckerVisitor → List StmtRef →
    Except TypeCheckError (TypeDecl × TypeCheckerVisitor)
  | 0, _, _ => .error recursionLimitError
  | fuel + 1, st, statements =>
    let st1 := clear_type_cache st
    let global_numeric_type := prescan_global_numeric_type st1.core.stmt_pool statements
    let original_hint := st1.type_inference.type_hint
    let st2 :=
      match global_numeric_type with
      | some g => setHint st1 (some g)
      | none => st1
    match visit_block_stmts fuel st2 statements Bool.true none with
    | .error e => .error e
    | .ok (last, st3) =>
      let st4 := setHint st3 original_hint
      match last with
      | some last_type => .ok (last_type, st4)
      | none => .error (TypeCheckError.generic_error "Empty block - no return value")

termination_by structural a1 _ _ => a1

/-- The statement loop of `visit_block`, carrying the `last_empty` flag and
running `last` type; `return` statements must agree with the first returned
type. -/
def visit_block_stmts : Nat → TypeCheckerVisitor → List StmtRef → Bool → Option TypeDecl →
    Except TypeCheckError (Option TypeDecl × TypeCheckerVisitor)
  | 0, _, _, _, _ => .error recursionLimitError
  | _ + 1, st, [], _, last => .ok (last, st)
  | fuel + 1, st, s :: rest, last_empty, last =>
    match lookupStmt st s with
    | none => .error (TypeCheckError.generic_error "Invalid statement reference in block")
    | some stmt =>
      match stmt with
      | Stmt.Return none => visit_block_stmts fuel st rest last_empty (some .Unit)
      | Stmt.Return (some e) =>
        match lookupExpr st e with
        | none => .error (TypeCheckError.generic_error "Invalid expression reference in return")
        | some expr_obj =>
          match accept_expr fuel st expr_obj with
          | .error er => .error er
          | .ok (ty, st1) =>
            if last_empty then visit_block_stmts fuel st1 rest Bool.false (some ty)
            else
              match last with
              | some last_ty =>
                if last_ty = ty then visit_block_stmts fuel st1 rest Bool.false (some ty)
                else .error ((TypeCheckError.type_mismatch last_ty ty).with_context "return statement")
              | none => visit_block_stmts fuel st1 rest Bool.false (some ty)
      | _ =>
        match accept_stmt fuel st stmt with
        | .error e => .error e
        | .ok (def_ty, st1) => visit_block_stmts fuel st1 rest last_empty (some def_ty)

termination_by structural a1 _ _ _ _ => a1

/-- One branch of `visit_if_elif_else`: an empty `Block([])` is skipped
(contributing no type); anything else is visited. -/
def check_branch : Nat → TypeCheckerVisitor → ExprRef → String →
    Except TypeCheckError (Option TypeDecl × TypeCheckerVisitor)
  | 0, _, _, _ => .error recursionLimitError
  | fuel + 1, st, r, msg =>
    match lookupExpr st r with
    | none => .error (TypeCheckError.generic_error msg)
    | some e =>
      let is_empty :=
        match e with
        | Expr.Block statements => statements.isEmpty
        | _ => Bool.false
      if is_empty then .ok (none, st)
      else
        match accept_expr fuel st e with
        | .error er => .error er
        | .ok (ty, st1) => .ok (some ty, st1)

termination_by structural a1 _ _ _ => a1

/-- The elif loop of `visit_if_elif_else`; only the block component of each
pair is consulted (conditions are not visited). -/
def collect_elif_types : Nat → TypeCheckerVisitor → List (ExprRef × ExprRef) →
    Except TypeCheckError (List TypeDecl × TypeCheckerVisitor)
  | 0, _, _ => .error recursionLimitError
  | _ + 1, st, [] => .ok ([], st)
  | fuel + 1, st, p :: rest =>
    match check_branch fuel st p.2 "Invalid elif block expression reference" with
    | .error e => .error e
    | .ok (ob, st1) =>
      match collect_elif_types fuel st1 rest with
      | .error e => .error e
      | .ok (tys, st2) =>
        .ok ((match ob with | some t => [t] | none => []) ++ tys, st2)

termination_by structural a1 _ _ => a1

/-- Embeds `visit_if_elif_else` (type_checker.rs lines 459-515): collect the types
of all non-empty branches (conditions are never visited), then combine. -/
def visit_if_elif_else : Nat → TypeCheckerVisitor → ExprRef → ExprRef →
    List (ExprRef × ExprRef) → ExprRef →
    Except TypeCheckError (TypeDecl × TypeCheckerVisitor)
  | 0, _, _, _, _, _ => .error recursionLimitError
  | fuel + 1, st, _cond, then_blk, elif_pairs, else_blk =>
    match check_branch fuel st then_blk "Invalid if block expression reference" with
    | .error e => .error e
    | .ok (tb, st1) =>
      match collect_elif_types fuel st1 elif_pairs with
      | .error e => .error e
      | .ok (elif_tys, st2) =>
        match check_branch fuel st2 else_blk "Invalid else block expression reference" with
        | .error e => .error e
        | .ok (eb, st3) =>
          let block_types :=
            (match tb with | some t => [t] | none => []) ++ elif_tys ++
              (match eb with | some t => [t] | none => [])
          .ok (if_elif_else_result block_types, st3)

termination_by structural a1 _ _ _ _ _ => a1

/-- Embeds `visit_assign` (type_checker.rs lines 517-532): both sides must have the
same type; the result is the left type. -/
def visit_assign : Nat → TypeCheckerVisitor → ExprRef → ExprRef →
    Except TypeCheckError (TypeDecl × TypeCheckerVisitor)
  | 0, _, _, _ => .error recursionLimitError
  | fuel + 1, st, lhs, rhs =>
    match lookupExpr st lhs with
    | none => .error (TypeCheckError.generic_error "Invalid left-hand expression reference")
    | some lhs_obj =>
      match accept_expr fuel st lhs_obj with
      | .error e => .error e
      | .ok (lhs_ty, st1) =>
        match lookupExpr st1 rhs with
        | none => .error (TypeCheckError.generic_error "Invalid right-hand expression reference")
        | some rhs_obj =>
          match accept_expr fuel st1 rhs_obj with
          | .error e => .error e
          | .ok (rhs_ty, st2) =>
            if lhs_ty ≠ rhs_ty then
              .error ((TypeCheckError.type_mismatch lhs_ty rhs_ty).with_context "assignment")
            else .ok (lhs_ty, st2)

termination_by structural a1 _ _ _ => a1

/-- Embeds `visit_call` (type_checker.rs lines 546-563): look up the function,
check it first if not yet checked (the `some none` sentinel guards
recursion), and return its declared return type. -/
def visit_call : Nat → TypeCheckerVisitor → Nat → ExprRef →
    Except TypeCheckError (TypeDecl × TypeCheckerVisitor)
  | 0, _, _, _ => .error recursionLimitError
  | fuel + 1, st, fn_name, _args =>
    let st1 := push_context st
    match st1.context.get_fn fn_name with
    | some f =>
      let need_check :=
        match lookupA st1.function_checking.is_checked_fn fn_name with
        | none => Bool.true
        | some none => Bool.true
        | some (some _) => Bool.false
      if need_check then
        match st1.context.get_fn fn_name with
        | none => .error (TypeCheckError.not_found "Function" "<INTERNAL_ERROR>")
        | some f2 =>
          match type_check fuel st1 f2 with
          | .error e => .error e
          | .ok (_, st2) => .ok (f.return_type.getD .Unknown, pop_context st2)
      else .ok (f.return_type.getD .Unknown, pop_context st1)
    | none =>
      .error (TypeCheckError.not_found "Function"
        ((resolveSym st1.core.string_interner fn_name).getD "<NOT_FOUND>"))

termination_by structural a1 _ _ _ => a1

/-- The element loop of `visit_array_literal`: each element is visited with
the element-type hint installed and the original hint restored after it. -/
def visit_elements : Nat → TypeCheckerVisitor → List ExprRef → Option TypeDecl → Option TypeDecl →
    Except TypeCheckError (List TypeDecl × TypeCheckerVisitor)
  | 0, _, _, _, _ => .error recursionLimitError
  | _ + 1, st, [], _, _ => .ok ([], st)
  | fuel + 1, st, e :: rest, element_hint, original_hint =>
    let stA :=
      match element_hint with
      | some h => setHint st (some h)
      | none => st
    match visit_expr fuel stA e with
    | .error er => .error er
    | .ok (ty, st1) =>
      let st2 := setHint st1 original_hint
      match visit_elements fuel st2 rest element_hint original_hint with
      | .error er => .error er
      | .ok (tys, st3) => .ok (ty :: tys, st3)

termination_by structural a1 _ _ _ _ => a1

/-- Embeds `visit_array_literal` (type_checker.rs lines 636-741): nonempty check,
per-element visits under the element hint, hint-driven rewriting of
`Number` elements, and the uniformity check. -/
def visit_array_literal : Nat → TypeCheckerVisitor → List ExprRef →
    Except TypeCheckError (TypeDecl × TypeCheckerVisitor)
  | 0, _, _ => .error recursionLimitError
  | fuel + 1, st, elements =>
    if elements.isEmpty then
      .error (TypeCheckError.array_error "Empty array literals are not supported")
    else
      let original_hint := st.type_inference.type_hint
      let element_type_hint : Option TypeDecl :=
        match st.type_inference.type_hint with
        | some (.Array ets _) =>
          match ets with
          | t :: _ => some t
          | [] => none
        | _ => none
      match visit_elements fuel st elements element_type_hint original_hint with
      | .error e => .error e
      | .ok (element_types, st1) =>
        match original_hint with
        | some (.Array expected_list _) =>
          match expected_list with
          | expected :: _ =>
            match array_apply_hint st1 expected elements element_types with
            | .error e => .error e
            | .ok (tys2, st2) => array_finish (setHint st2 original_hint) tys2 elements.length
          | [] => array_finish (setHint st1 original_hint) element_types elements.length
        | _ => array_finish (setHint st1 original_hint) element_types elements.length

termination_by structural a1 _ _ => a1

/-- Embeds `visit_array_access` (type_checker.rs lines 743-789): the index is
visited under a `UInt64` hint and a `Number` index is rewritten to `UInt64`;
the result is the element type. -/
def visit_array_access : Nat → TypeCheckerVisitor → ExprRef → ExprRef →
    Except TypeCheckError (TypeDecl × TypeCheckerVisitor)
  | 0, _, _, _ => .error recursionLimitError
  | fuel + 1, st, array, index =>
    match visit_expr fuel st array with
    | .error e => .error e
    | .ok (array_type, st1) =>
      let original_hint := st1.type_inference.type_hint
      let st2 := setHint st1 (some .UInt64)
      match visit_expr fuel st2 index with
      | .error e => .error e
      | .ok (index_type, st3) =>
        let st4 := setHint st3 original_hint
        match (match index_type with
               | .Number => transform_numeric_expr st4 index .UInt64
               | .Unknown => .ok st4
               | .UInt64 => .ok st4
               | .Int64 => .ok st4
               | _ => .error (TypeCheckError.array_error "Array index must be an integer type")) with
        | .error e => .error e
        | .ok st5 =>
          match array_type with
          | .Array element_types _ =>
            match element_types with
            | [] => .error (TypeCheckError.array_error "Cannot access elements of empty array")
            | t :: _ => .ok (t, st5)
          | _ => .error (TypeCheckError.array_error "Cannot index into non-array type")

termination_by structural a1 _ _ _ => a1

/-- Embeds `visit_expression_stmt`. -/
def visit_expression_stmt : Nat → TypeCheckerVisitor → ExprRef →
    Except TypeCheckError (TypeDecl × TypeCheckerVisitor)
  | 0, _, _ => .error recursionLimitError
  | fuel + 1, st, e =>
    match lookupExpr st e with
    | none => .error (TypeCheckError.generic_error "Invalid expression reference in statement")
    | some expr_obj => accept_expr fuel st expr_obj

termination_by structural a1 _ _ => a1

/-- Embeds `process_val_type` (type_checker.rs lines 74-104): visit the
initializer (a `Unit` initializer is a mismatch) and bind the variable. -/
def process_val_type : Nat → TypeCheckerVisitor → Nat → Option TypeDecl → Option ExprRef →
    Except TypeCheckError (TypeDecl × TypeCheckerVisitor)
  | 0, _, _, _, _ => .error recursionLimitError
  | fuel + 1, st, name, type_decl, expr =>
    match expr with
    | some e =>
      match visit_expr fuel st e with
      | .error er => .error er
      | .ok (ty, st1) =>
        if ty = .Unit then .error (TypeCheckError.type_mismatch .Unknown ty)
        else
          match type_decl with
          | some .Unknown => .ok (.Unit, { st1 with context := st1.context.set_var name ty })
          | some decl =>
            if decl ≠ ty then .error (TypeCheckError.type_mismatch decl ty)
            else .ok (.Unit, { st1 with context := st1.context.set_var name ty })
          | none => .ok (.Unit, { st1 with context := st1.context.set_var name ty })
    | none => .ok (.Unit, st)

termination_by structural a1 _ _ _ _ => a1

/-- Embeds `visit_var`: delegate to `process_val_type`. -/
def visit_var : Nat → TypeCheckerVisitor → Nat → Option TypeDecl → Option ExprRef →
    Except TypeCheckError (TypeDecl × TypeCheckerVisitor)
  | 0, _, _, _, _ => .error recursionLimitError
  | fuel + 1, st, name, type_decl, expr =>
    match process_val_type fuel st name type_decl expr with
    | .error e => .error e
    | .ok (_, st1) => .ok (.Unit, st1)

termination_by structural a1 _ _ _ _ => a1

/-- Embeds `visit_val` (type_checker.rs lines 803-825): install the declared hint,
visit the initializer, record the variable/expression mapping, apply the
rewrite decisions, bind the final type, and restore the hint. -/
def visit_val : Nat → TypeCheckerVisitor → Nat → Option TypeDecl → ExprRef →
    Except TypeCheckError (TypeDecl × TypeCheckerVisitor)
  | 0, _, _, _, _ => .error recursionLimitError
  | fuel + 1, st, name, type_decl, expr =>
    let p := setup_type_hint_for_val st type_decl
    match visit_expr fuel p.2 expr with
    | .error e => .error e
    | .ok (expr_ty, st2) =>
      let st3 := update_variable_expr_mapping st2 name expr expr_ty
      match apply_type_transformations st3 type_decl expr_ty expr with
      | .error e => .error e
      | .ok st4 =>
        let final_type := determine_final_type type_decl expr_ty
        let st5 := { st4 with context := st4.context.set_var name final_type }
        .ok (.Unit, setHint st5 p.1)

termination_by structural a1 _ _ _ _ => a1

/-- Embeds `visit_return`: the returned expression is merely visited; the statement
itself has type `Unit` (agreement is enforced by `visit_block`). -/
def visit_return : Nat → TypeCheckerVisitor → Option ExprRef →
    Except TypeCheckError (TypeDecl × TypeCheckerVisitor)
  | 0, _, _ => .error recursionLimitError
  | fuel + 1, st, e =>
    match e with
    | none => .ok (.Unit, st)
    | some er =>
      match lookupExpr st er with
      | none => .error (TypeCheckError.generic_error "Invalid expression reference in return")
      | some expr_obj =>
        match accept_expr fuel st expr_obj with
        | .error e2 => .error e2
        | .ok (_, st1) => .ok (.Unit, st1)

termination_by structural a1 _ _ => a1

/-- Embeds `visit_for` (type_checker.rs lines 839-849): bind the loop variable to
the range's type in a fresh scope and check the body. -/
def visit_for : Nat → TypeCheckerVisitor → Nat → ExprRef → ExprRef → ExprRef →
    Except TypeCheckError (TypeDecl × TypeCheckerVisitor)
  | 0, _, _, _, _, _ => .error recursionLimitError
  | fuel + 1, st, init, _cond, range, body =>
    let st1 := push_context st
    match lookupExpr st1 range with
    | none => .error (TypeCheckError.generic_error "Invalid range expression reference")
    | some range_obj =>
      match accept_expr fuel st1 range_obj with
      | .error e => .error e
      | .ok (range_ty, st2) =>
        match process_val_type fuel st2 init (some range_ty) (some range) with
        | .error e => .error e
        | .ok (_, st3) =>
          match lookupExpr st3 body with
          | none => .error (TypeCheckError.generic_error "Invalid body expression reference")
          | some body_obj =>
            match accept_expr fuel st3 body_obj with
            | .error e => .error e
            | .ok (ty, st4) => .ok (ty, pop_context st4)

termination_by structural a1 _ _ _ _ _ => a1

/-- Embeds `visit_while` (type_checker.rs lines 851-854): only the body is
visited; the condition is ignored. -/
def visit_while : Nat → TypeCheckerVisitor → ExprRef → ExprRef →
    Except TypeCheckError (TypeDecl × TypeCheckerVisitor)
  | 0, _, _, _ => .error recursionLimitError
  | fuel + 1, st, _cond, body =>
    match lookupExpr st body with
    | none => .error (TypeCheckError.generic_error "Invalid body expression reference in while")
    | some body_obj => accept_expr fuel st body_obj

termination_by structural a1 _ _ _ => a1

/-- Embeds `visit_field_access` (type_checker.rs lines 925-944): field access on a
struct-like type yields `Unknown`; anything else is unsupported. -/
def visit_field_access : Nat → TypeCheckerVisitor → ExprRef → Nat →
    Except TypeCheckError (TypeDecl × TypeCheckerVisitor)
  | 0, _, _, _ => .error recursionLimitError
  | fuel + 1, st, obj, field =>
    match visit_expr fuel st obj with
    | .error e => .error e
    | .ok (obj_type, st1) =>
      match obj_type with
      | .Identifier _ => .ok (.Unknown, st1)
      | .Struct _ => .ok (.Unknown, st1)
      | other =>
        .error (TypeCheckError.unsupported_operation
          ("field access " ++ ((resolveSym st1.core.string_interner field).getD "<unknown>"))
          other)

termination_by structural a1 _ _ _ => a1

/-- The argument loop of `visit_method_call` and `visit_struct_literal`. -/
def visit_args : Nat → TypeCheckerVisitor → List ExprRef →
    Except TypeCheckError TypeCheckerVisitor
  | 0, _, _ => .error recursionLimitError
  | _ + 1, st, [] => .ok st
  | fuel + 1, st, a :: rest =>
    match visit_expr fuel st a with
    | .error e => .error e
    | .ok (_, st1) => visit_args fuel st1 rest

termination_by structural a1 _ _ => a1

/-- Embeds `visit_method_call` (type_checker.rs lines 946-987): `String.len()` is
built in; methods on struct-like receivers yield `Unknown` (the source
message interpolates the argument count; kept). -/
def visit_method_call : Nat → TypeCheckerVisitor → ExprRef → Nat → List ExprRef →
    Except TypeCheckError (TypeDecl × TypeCheckerVisitor)
  | 0, _, _, _, _ => .error recursionLimitError
  | fuel + 1, st, obj, method, args =>
    match visit_expr fuel st obj with
    | .error e => .error e
    | .ok (obj_type, st1) =>
      match visit_args fuel st1 args with
      | .error e => .error e
      | .ok st2 =>
        let method_name := (resolveSym st2.core.string_interner method).getD "<unknown>"
        match obj_type with
        | .String =>
          if method_name = "len" then
            if args.isEmpty then .ok (.UInt64, st2)
            else
              .error (TypeCheckError.method_error "len" .String
                ("takes no arguments, but " ++ toString args.length ++ " provided"))
          else .error (TypeCheckError.method_error method_name .String "method not found")
        | .Identifier _ => .ok (.Unknown, st2)
        | .Struct _ => .ok (.Unknown, st2)
        | other =>
          .error (TypeCheckError.method_error method_name other "method call on non-struct type")

termination_by structural a1 _ _ _ _ => a1

/-- Embeds `visit_struct_literal` (type_checker.rs lines 989-997): visit all field
values and yield the struct type. -/
def visit_struct_literal : Nat → TypeCheckerVisitor → Nat → List (Nat × ExprRef) →
    Except TypeCheckError (TypeDecl × TypeCheckerVisitor)
  | 0, _, _, _ => .error recursionLimitError
  | fuel + 1, st, struct_name, fields =>
    match visit_args fuel st (fields.map Prod.snd) with
    | .error e => .error e
    | .ok st1 => .ok (.Struct struct_name, st1)

termination_by structural a1 _ _ _ => a1

/-- The per-function statement loop of `type_check` (type_checker.rs lines
167-175): accept each statement, keeping the last type. -/
def type_check_stmts : Nat → TypeCheckerVisitor → List StmtRef → TypeDecl →
    Except TypeCheckError (TypeDecl × TypeCheckerVisitor)
  | 0, _, _, _ => .error recursionLimitError
  | _ + 1, st, [], last => .ok (last, st)
  | fuel + 1, st, s :: rest, _last =>
    match lookupStmt st s with
    | none => .error (TypeCheckError.generic_error "Invalid statement reference")
    | some stmt =>
      match accept_stmt fuel st stmt with
      | .error e => .error e
      | .ok (ty, st1) => type_check_stmts fuel st1 rest ty

termination_by structural a1 _ _ _ => a1

/-- Embeds `type_check` (type_checker.rs lines 106-197): recursion guard, body
extraction, parameter binding, the numeric pre-scan hint, the statement
loop, hint restoration, `finalize_number_types`, and the declared return
type check. -/
def type_check : Nat → TypeCheckerVisitor → Function →
    Except TypeCheckError (TypeDecl × TypeCheckerVisitor)
  | 0, _, _ => .error recursionLimitError
  | fuel + 1, st, func =>
    match lookupA st.function_checking.is_checked_fn func.name with
    | some (some result_ty) => .ok (result_ty, st)
    | some none => .ok (.Unknown, st)
    | none =>
      let st1 := { st with function_checking := { st.function_checking with
          is_checked_fn := upsertA st.function_checking.is_checked_fn func.name none } }
      let st2 := clear_type_cache st1
      let st3 := { st2 with function_checking := { st2.function_checking with
          call_depth := st2.function_checking.call_depth + 1 } }
      match get_function_body_statements st3 func with
      | .error e => .error e
      | .ok statements =>
        let st4 := push_context st3
        let st5 := { st4 with context :=
          func.parameter.foldl (fun c p => c.set_var p.1 p.2) st4.context }
        let global_numeric_type := prescan_global_numeric_type st5.core.stmt_pool statements
        let original_hint := st5.type_inference.type_hint
        let st6 :=
          match global_numeric_type with
          | some g => setHint st5 (some g)
          | none => st5
        match type_check_stmts fuel st6 statements .Unit with
        | .error e => .error e
        | .ok (last, st7) =>
          let st8 := pop_context st7
          let st9 := { st8 with function_checking := { st8.function_checking with
              call_depth := st8.function_checking.call_depth - 1 } }
          let st10 := setHint st9 original_hint
          match finalize_number_types st10 with
          | .error e => .error e
          | .ok st11 =>
            match func.return_type with
            | some expected_return_type =>
              if last ≠ expected_return_type then
                .error (TypeCheckError.type_mismatch expected_return_type last)
              else .ok (last, mark_checked st11 func.name last)
            | none => .ok (last, mark_checked st11 func.name last)

termination_by structural a1 _ _ => a1
end

/-! ## The tree-walking evaluator (`interpreter/src/main.rs`)

Every failure path of this evaluator is a Rust `panic!` (or a panicking
intrinsic such as integer division); its `Result<_, String>` error channel is
never used.  The error type keeps the two apart.  Arithmetic on `+`, `-`,
`*` wraps modulo 2^64 (the release-profile semantics of the host, as the
spec states); division checks (zero divisor, `i64::MIN / -1`) always panic
on the host. -/

/-- Runtime values (`Object` in interpreter/src/main.rs). -/
inductive Object where
  | Bool (b : Bool)
  | Int64 (v : Int)
  | UInt64 (v : Nat)
  | String (s : String)
  | Null
  | Unit
deriving DecidableEq, Repr

/-- Embeds `Object::get_type`. -/
def objectType : Object → TypeDecl
  | .Unit => .Unit
  | .Null => .Any
  | .Bool _ => .Bool
  | .UInt64 _ => .UInt64
  | .Int64 _ => .Int64
  | .String _ => .String

/-- An evaluator failure: a `panic!` (process abort) or a returned
`Err(String)` (a reported runtime error). -/
inductive EvalError where
  | panic (msg : String)
  | err (msg : String)
deriving DecidableEq, Repr

/-- Two's-complement wrap-around into the signed 64-bit range. -/
def wrapI64 (n : Int) : Int :=
  ((n + 2 ^ 63) % 2 ^ 64) - 2 ^ 63

/-- Wrap-around into the unsigned 64-bit range. -/
def wrapU64 (n : Int) : Nat :=
  (n % 2 ^ 64).toNat

/-- A scope frame (`Environment`): name to (mutability, cell).  The source
carries a `super_context` parent pointer, but the evaluator never installs
one (`new_block`'s result is discarded), so the chain is always a single
frame and is modelled flat. -/
structure Environment where
  var : List (Nat × (Bool × Object))
deriving DecidableEq, Repr

/-- Embeds `Environment::set_val`: binding an existing name panics. -/
def Environment.set_val (env : Environment) (name : Nat) (value : Object) :
    Except EvalError Environment :=
  match lookupA env.var name with
  | some _ => .error (.panic ("Variable " ++ toString name ++ " already defined (val)"))
  | none => .ok { env with var := upsertA env.var name (Bool.false, value) }

/-- Embeds `Environment::set_var`: reassignment requires mutability and an equal
runtime type, and writes through the cell only for the four scalar object
shapes (`Null`/`Unit` cells are left untouched by the source's match). -/
def Environment.set_var (env : Environment) (name : Nat) (value : Object) :
    Except EvalError Environment :=
  match lookupA env.var name with
  | some (mutab, exist) =>
    if mutab = Bool.false then
      .error (.panic ("Variable " ++ toString name ++ " already defined as val"))
    else if objectType exist ≠ objectType value then
      .error (.panic ("Variable " ++ toString name ++ " already defined: different type (var)"))
    else
      let newobj :=
        match exist, value with
        | Object.Int64 _, Object.Int64 v => Object.Int64 v
        | Object.UInt64 _, Object.UInt64 v => Object.UInt64 v
        | Object.Bool _, Object.Bool v => Object.Bool v
        | Object.String _, Object.String v => Object.String v
        | old, _ => old
      .ok { env with var := upsertA env.var name (mutab, newobj) }
  | none => .ok { env with var := upsertA env.var name (Bool.true, value) }

/-- Embeds `Environment::get_val` (the parent chain is always empty; see above). -/
def Environment.get_val (env : Environment) (name : Nat) : Option Object :=
  (lookupA env.var name).map Prod.snd

/-- Embeds `EvaluationContext`: pools plus the (flat) environment.  The interner is
carried to resolve interned string literals (the source's older AST stores
the literal string inline). -/
structure EvaluationContext where
  stmt_pool : StmtPool
  expr_pool : ExprPool
  string_interner : List String
  environment : Environment
deriving DecidableEq, Repr

/-- Embeds `convert_object`: literal expression to runtime object. -/
def convert_object (interner : List String) : Option Expr → Except EvalError Object
  | some Expr.True => .ok (Object.Bool Bool.true)
  | some Expr.False => .ok (Object.Bool Bool.false)
  | some (Expr.Int64 v) => .ok (Object.Int64 v)
  | some (Expr.UInt64 v) => .ok (Object.UInt64 v)
  | some (Expr.String s) => .ok (Object.String ((resolveSym interner s).getD ""))
  | _ => .error (.panic "convert_object: Not handled yet")

/-- Whether `convert_object` handles this node. -/
def Expr.is_basic_literal : Expr → Bool
  | .Int64 _ => Bool.true
  | .UInt64 _ => Bool.true
  | .String _ => Bool.true
  | .True => Bool.true
  | .False => Bool.true
  | _ => Bool.false

/-- The operator dispatch of `EvaluationContext::evaluate` on two operand
objects (interpreter/src/main.rs lines 215-300).  `+`, `-`, `*` wrap; `/`
panics on a zero divisor and on `i64::MIN / -1`, and truncates toward zero
otherwise; comparisons yield booleans; `==`/`!=` also cover strings. -/
def eval_binary_op (op : Operator) (l r : Object) : Except EvalError Object :=
  match op with
  | .IAdd =>
    match l, r with
    | .Int64 a, .Int64 b => .ok (.Int64 (wrapI64 (a + b)))
    | .UInt64 a, .UInt64 b => .ok (.UInt64 (wrapU64 ((a : Int) + (b : Int))))
    | _, _ => .error (.panic "evaluate: Bad types for binary + operation due to different type")
  | .ISub =>
    match l, r with
    | .Int64 a, .Int64 b => .ok (.Int64 (wrapI64 (a - b)))
    | .UInt64 a, .UInt64 b => .ok (.UInt64 (wrapU64 ((a : Int) - (b : Int))))
    | _, _ => .error (.panic "evaluate: Bad types for binary - operation due to different type")
  | .IMul =>
    match l, r with
    | .Int64 a, .Int64 b => .ok (.Int64 (wrapI64 (a * b)))
    | .UInt64 a, .UInt64 b => .ok (.UInt64 (wrapU64 ((a : Int) * (b : Int))))
    | _, _ => .error (.panic "evaluate: Bad types for binary * operation due to different type")
  | .IDiv =>
    match l, r with
    | .Int64 a, .Int64 b =>
      if b = 0 then .error (.panic "attempt to divide by zero")
      else if a = i64Min ∧ b = -1 then .error (.panic "attempt to divide with overflow")
      else .ok (.Int64 (Int.tdiv a b))
    | .UInt64 a, .UInt64 b =>
      if b = 0 then .error (.panic "attempt to divide by zero")
      else .ok (.UInt64 (a / b))
    | _, _ => .error (.panic "evaluate: Bad types for binary / operation due to different type")
  | .EQ =>
    match l, r with
    | .Int64 a, .Int64 b => .ok (.Bool (decide (a = b)))
    | .UInt64 a, .UInt64 b => .ok (.Bool (decide (a = b)))
    | .String a, .String b => .ok (.Bool (decide (a = b)))
    | _, _ => .error (.panic "evaluate: Bad types for binary == operation due to different type")
  | .NE =>
    match l, r with
    | .Int64 a, .Int64 b => .ok (.Bool (decide (a ≠ b)))
    | .UInt64 a, .UInt64 b => .ok (.Bool (decide (a ≠ b)))
    | .String a, .String b => .ok (.Bool (decide (a ≠ b)))
    | _, _ => .error (.panic "evaluate: Bad types for binary != operation due to different type")
  | .GE =>
    match l, r with
    | .Int64 a, .Int64 b => .ok (.Bool (decide (a ≥ b)))
    | .UInt64 a, .UInt64 b => .ok (.Bool (decide (a ≥ b)))
    | _, _ => .error (.panic "evaluate: Bad types for binary >= operation due to different type")
  | .GT =>
    match l, r with
    | .Int64 a, .Int64 b => .ok (.Bool (decide (a > b)))
    | .UInt64 a, .UInt64 b => .ok (.Bool (decide (a > b)))
    | _, _ => .error (.panic "evaluate: Bad types for binary > operation due to different type")
  | .LE =>
    match l, r with
    | .Int64 a, .Int64 b => .ok (.Bool (decide (a ≤ b)))
    | .UInt64 a, .UInt64 b => .ok (.Bool (decide (a ≤ b)))
    | _, _ => .error (.panic "evaluate: Bad types for binary <= operation due to different type")
  | .LT =>
    match l, r with
    | .Int64 a, .Int64 b => .ok (.Bool (decide (a < b)))
    | .UInt64 a, .UInt64 b => .ok (.Bool (decide (a < b)))
    | _, _ => .error (.panic "evaluate: Bad types for binary < operation due to different type")
  | .LogicalAnd =>
    match l, r with
    | .Bool a, .Bool b => .ok (.Bool (a && b))
    | _, _ => .error (.panic "evaluate: Bad types for binary && operation due to different type")
  | .LogicalOr =>
    match l, r with
    | .Bool a, .Bool b => .ok (.Bool (a || b))
    | _, _ => .error (.panic "evaluate: Bad types for binary || operation due to different type")

mutual

/-- Embeds `EvaluationContext::evaluate` (interpreter/src/main.rs lines 202-344):
binary operators require equal runtime types; literals convert; identifiers
look up the environment (unbound is an unwrap panic); blocks run their
statements; everything else (including `Assign` outside a statement and
`IfElifElse`, whose older `IfElse` shape no longer exists in this AST) hits
the catch-all panic. -/
def evaluate : Nat → EvaluationContext → ExprRef →
    Except EvalError (Object × EvaluationContext)
  | 0, _, _ => .error (.panic "stack overflow")
  | fuel + 1, ctx, e =>
    match ctx.expr_pool.get? e.idx with
    | some (Expr.Binary op lhs rhs) =>
      match evaluate fuel ctx lhs with
      | .error er => .error er
      | .ok (lv, ctx1) =>
        match evaluate fuel ctx1 rhs with
        | .error er => .error er
        | .ok (rv, ctx2) =>
          if objectType lv ≠ objectType rv then
            .error (.panic "evaluate: Bad types for binary operation due to different type")
          else
            match eval_binary_op op lv rv with
            | .error er => .error er
            | .ok res => .ok (res, ctx2)
    | some (Expr.Identifier s) =>
      match ctx.environment.get_val s with
      | some v => .ok (v, ctx)
      | none => .error (.panic "called Option::unwrap on a None value")
    | some (Expr.Block statements) => evaluate_block_loop fuel ctx statements Object.Unit
    | some x =>
      if x.is_basic_literal then
        match convert_object ctx.string_interner (some x) with
        | .ok o => .ok (o, ctx)
        | .error er => .error er
      else .error (.panic "evaluate: Not handled yet")
    | none => .error (.panic "evaluate: Not handled yet")
termination_by structural a1 _ _ => a1

/-- Embeds `EvaluationContext::evaluate_block` (interpreter/src/main.rs lines
346-438): the running `last` value starts as `Unit`; `val`/`var` bind,
`return` short-circuits, loops and `break`/`continue` are `todo!` panics,
and expression statements update `last` (assignment statements always panic:
the source matches the left value's runtime type against
`TypeDecl::Identifier`, which `Object::get_type` never yields).  The
`StructDecl`/`ImplBlock` statement forms postdate this evaluator and fall to
a panic. -/
def evaluate_block_loop : Nat → EvaluationContext → List StmtRef → Object →
    Except EvalError (Object × EvaluationContext)
  | 0, _, _, _ => .error (.panic "stack overflow")
  | _ + 1, ctx, [], last => .ok (last, ctx)
  | fuel + 1, ctx, s :: rest, last =>
    match ctx.stmt_pool.get? s.idx with
    | none => .error (.panic "called Option::unwrap on a None value")
    | some stmt =>
      match stmt with
      | Stmt.Val name _ e =>
        match evaluate fuel ctx e with
        | .error er => .error er
        | .ok (value, ctx1) =>
          match ctx1.environment.set_val name value with
          | .error er => .error er
          | .ok env1 =>
            evaluate_block_loop fuel { ctx1 with environment := env1 } rest Object.Unit
      | Stmt.Var name _ e =>
        match (match e with
               | none => Except.ok (Object.Null, ctx)
               | some er => evaluate fuel ctx er) with
        | .error er2 => .error er2
        | .ok (value, ctx1) =>
          match ctx1.environment.set_var name value with
          | .error er2 => .error er2
          | .ok env1 =>
            evaluate_block_loop fuel { ctx1 with environment := env1 } rest last
      | Stmt.Return none => .ok (Object.Unit, ctx)
      | Stmt.Return (some er) => evaluate fuel ctx er
      | Stmt.Break => .error (.panic "not yet implemented: break")
      | Stmt.While _ _ => .error (.panic "not yet implemented: while")
      | Stmt.For _ _ _ _ => .error (.panic "not yet implemented: for")
      | Stmt.Continue => .error (.panic "not yet implemented: continue")
      | Stmt.StructDecl _ _ => .error (.panic "evaluate_block: statement not handled")
      | Stmt.ImplBlock _ _ => .error (.panic "evaluate_block: statement not handled")
      | Stmt.Expression expr =>
        match ctx.expr_pool.get? expr.idx with
        | none => .error (.panic "called Option::unwrap on a None value")
        | some e =>
          match e with
          | Expr.Assign lhs rhs =>
            match evaluate fuel ctx lhs with
            | .error er2 => .error er2
            | .ok (lv, ctx1) =>
              match evaluate fuel ctx1 rhs with
              | .error er2 => .error er2
              | .ok (rv, ctx2) =>
                match objectType lv with
                | TypeDecl.Identifier name =>
                  match ctx2.environment.get_val name with
                  | none =>
                    .error (.panic "evaluate_block: bad assignment due to variable was not set")
                  | some existing =>
                    if objectType existing ≠ objectType rv then
                      .error (.panic "evaluate_block: Bad types for assignment due to different type")
                    else
                      match ctx2.environment.set_var name rv with
                      | .error er2 => .error er2
                      | .ok env1 =>
                        evaluate_block_loop fuel { ctx2 with environment := env1 } rest last
                | _ => .error (.panic "evaluate_block: bad assignment due to lhs is not identifier")
          | Expr.Int64 v => evaluate_block_loop fuel ctx rest (Object.Int64 v)
          | Expr.UInt64 v => evaluate_block_loop fuel ctx rest (Object.UInt64 v)
          | Expr.String sy =>
            evaluate_block_loop fuel ctx rest
              (Object.String ((resolveSym ctx.string_interner sy).getD ""))
          | Expr.Identifier sy =>
            match ctx.environment.get_val sy with
            | none => .error (.panic "evaluate_block: Identifier is null")
            | some obj =>
              if obj = Object.Null then .error (.panic "evaluate_block: Identifier is null")
              else evaluate_block_loop fuel ctx rest obj
          | Expr.Block blk =>
            match evaluate_block_loop fuel ctx blk Object.Unit with
            | .error er2 => .error er2
            | .ok (v, ctx1) => evaluate_block_loop fuel ctx1 rest v
          | _ =>
            match evaluate fuel ctx expr with
            | .error er2 => .error er2
            | .ok (v, ctx1) => evaluate_block_loop fuel ctx1 rest v
termination_by structural a1 _ _ _ => a1

end

/-- Embeds `evaluate_block`: the statement loop started with `last = Unit`. -/
def evaluate_block (fuel : Nat) (ctx : EvaluationContext) (statements : List StmtRef) :
    Except EvalError (Object × EvaluationContext) :=
  evaluate_block_loop fuel ctx statements Object.Unit

/-- Embeds `EvaluationContext::evaluate_main` (interpreter/src/main.rs lines
440-456): run the body block of `main`; a `Unit`-or-absent declared return
type yields `Unit`, otherwise the block value. -/
def evaluate_main (fuel : Nat) (ctx : EvaluationContext) (function : Function) :
    Except EvalError (Object × EvaluationContext) :=
  match ctx.stmt_pool.get? function.code.idx with
  | some (Stmt.Expression e) =>
    match ctx.expr_pool.get? e.idx with
    | some (Expr.Block statements) =>
      match evaluate_block fuel ctx statements with
      | .error er => .error er
      | .ok (res, ctx1) =>
        if function.return_type = none ∨ function.return_type = some TypeDecl.Unit then
          .ok (Object.Unit, ctx1)
        else .ok (res, ctx1)
    | _ => .error (.panic "evaluate_main: Not handled yet")
  | _ => .error (.panic "evaluate_main: Not handled yet")

/-! ## Concrete fixture programs and states used by the claim theorems -/

/-- A one-function program `fn main() { 1u64 }` used as the C1 witness. -/
def c1w_interner : List String := ["main"]

/-- Expression pool of the C1 witness program. -/
def c1w_expr_pool : ExprPool := [Expr.UInt64 1, Expr.Block [⟨0⟩]]

/-- Statement pool of the C1 witness program. -/
def c1w_stmt_pool : StmtPool := [Stmt.Expression ⟨0⟩, Stmt.Expression ⟨1⟩]

/-- The `main` function of the C1 witness program. -/
def c1w_main : Function := ⟨0, [], none, ⟨1⟩⟩

/-- Fresh checker state over the C1 witness program. -/
def c1w_st0 : TypeCheckerVisitor :=
  ⟨⟨c1w_stmt_pool, c1w_expr_pool, c1w_interner⟩, ⟨[], []⟩, ⟨none, [], []⟩, ⟨[], 0⟩, ⟨[]⟩⟩

/-- The checker state after `type_check` on the C1 witness program. -/
def c1w_st_out : TypeCheckerVisitor :=
  ⟨⟨c1w_stmt_pool, c1w_expr_pool, c1w_interner⟩, ⟨[], []⟩, ⟨none, [], []⟩,
    ⟨[(0, some .UInt64)], 0⟩, ⟨[]⟩⟩

/-- A state whose hint is neither Int64 nor UInt64, for the C4 witness. -/
def c4w_st : TypeCheckerVisitor :=
  ⟨⟨[], [], []⟩, ⟨[], []⟩, ⟨some .Bool, [], []⟩, ⟨[], 0⟩, ⟨[]⟩⟩

/-- A two-node pool holding the digit string 7 as a `Number`, for the C8
witness. -/
def c8w_st : TypeCheckerVisitor :=
  ⟨⟨[], [Expr.Number 0, Expr.UInt64 3], ["7"]⟩, ⟨[], []⟩, ⟨none, [], []⟩, ⟨[], 0⟩, ⟨[]⟩⟩

/-- The C8 witness pool after the rewrite. -/
def c8w_st_out : TypeCheckerVisitor :=
  ⟨⟨[], [Expr.Int64 7, Expr.UInt64 3], ["7"]⟩, ⟨[], []⟩, ⟨none, [], []⟩, ⟨[], 0⟩, ⟨[]⟩⟩

/-- A checker state with no hint interning the digit string 5, for the C5
witness. -/
def c5w_st : TypeCheckerVisitor :=
  ⟨⟨[], [], ["5"]⟩, ⟨[], []⟩, ⟨none, [], []⟩, ⟨[], 0⟩, ⟨[]⟩⟩

/-- An arbitrary concrete state for the C10 witness. -/
def c10w_st : TypeCheckerVisitor :=
  ⟨⟨[], [], []⟩, ⟨[], []⟩, ⟨none, [], []⟩, ⟨[], 0⟩, ⟨[]⟩⟩

/-- A one-block pool for the C9 witness. -/
def c9w_st : TypeCheckerVisitor :=
  ⟨⟨[], [Expr.Block []], []⟩, ⟨[], []⟩, ⟨none, [], []⟩, ⟨[], 0⟩, ⟨[]⟩⟩

/-- A state whose pool holds one empty block, for the C6 witness. -/
def c6w_st : TypeCheckerVisitor :=
  ⟨⟨[], [Expr.Block []], []⟩, ⟨[], []⟩, ⟨none, [], []⟩, ⟨[], 0⟩, ⟨[]⟩⟩

/-- A pool holding `1i64 + 2u64`, for the C7 witness. -/
def c7w_st : TypeCheckerVisitor :=
  ⟨⟨[], [Expr.Int64 1, Expr.UInt64 2], []⟩, ⟨[], []⟩, ⟨none, [], []⟩, ⟨[], 0⟩, ⟨[]⟩⟩

/-- The pool of `1i64 / 0i64`, for the C2 counterexample. -/
def c2x_ctx : EvaluationContext :=
  ⟨[], [Expr.Int64 1, Expr.Int64 0, Expr.Binary .IDiv ⟨0⟩ ⟨1⟩], [], ⟨[]⟩⟩

/-- The pool of `3i64 + 4i64`, for the C2 witness. -/
def c2w_ctx : EvaluationContext :=
  ⟨[], [Expr.Int64 3, Expr.Int64 4, Expr.Binary .IAdd ⟨0⟩ ⟨1⟩], [], ⟨[]⟩⟩

/-- Interner of the S7 program: symbols a, 5, 7, main. -/
def c3_interner : List String := ["a", "5", "7", "main"]

/-- Expression pool of the S7 program before checking. -/
def c3_expr_pool : ExprPool :=
  [Expr.Number 1, Expr.Identifier 0, Expr.Number 2,
   Expr.Binary Operator.IAdd ⟨1⟩ ⟨2⟩, Expr.Block [⟨0⟩, ⟨1⟩]]

/-- Statement pool of the S7 program. -/
def c3_stmt_pool : StmtPool :=
  [Stmt.Val 0 (some TypeDecl.Int64) ⟨0⟩, Stmt.Expression ⟨3⟩, Stmt.Expression ⟨4⟩]

/-- The `main` function of the S7 program. -/
def c3_main : Function := ⟨3, [], some TypeDecl.Int64, ⟨2⟩⟩

/-- Fresh checker state over the S7 program. -/
def c3_st0 : TypeCheckerVisitor :=
  ⟨⟨c3_stmt_pool, c3_expr_pool, c3_interner⟩, ⟨[], []⟩, ⟨none, [], []⟩, ⟨[], 0⟩, ⟨[]⟩⟩

/-- The expression pool `type_check` actually produces for S7: the literal 5
was rewritten to `Int64 5`, but the literal 7 was rewritten to `UInt64 7`
(the block-wide `Int64` hint is restored to `None` before
`finalize_number_types` runs, and `7` was never recorded in
`number_usage_context`, so the finalization default `UInt64` applies). -/
def c3_expr_pool_checked : ExprPool :=
  [Expr.Int64 5, Expr.Identifier 0, Expr.UInt64 7,
   Expr.Binary Operator.IAdd ⟨1⟩ ⟨2⟩, Expr.Block [⟨0⟩, ⟨1⟩]]

/-- The full checker state after `type_check` on S7. -/
def c3_st_checked : TypeCheckerVisitor :=
  ⟨⟨c3_stmt_pool, c3_expr_pool_checked, c3_interner⟩, ⟨[], []⟩,
    ⟨none, [(0, ⟨0⟩)], []⟩, ⟨[(3, some .Int64)], 0⟩, ⟨[(⟨0⟩, .Int64)]⟩⟩

/-- Evaluation context over the checked S7 pool. -/
def c3_eval_ctx : EvaluationContext := ⟨c3_stmt_pool, c3_expr_pool_checked, c3_interner, ⟨[]⟩⟩

/-! ## Properties of the in-place `Number` rewriting -/

/-- No `Number` node sits at pool index `i`. -/
def notNumAt (st : TypeCheckerVisitor) (i : Nat) : Prop :=
  ∀ sym, st.core.expr_pool.get? i ≠ some (Expr.Number sym)

/-- A successful `transform_numeric_expr` either leaves the state unchanged
(when the node is not a `Number`) or writes a concrete integer node at
exactly the target index. -/
theorem transform_cases (st st' : TypeCheckerVisitor) (r : ExprRef) (t : TypeDecl)
    (h : transform_numeric_expr st r t = .ok st') :
    (st' = st ∧ ∀ sym, lookupExpr st r ≠ some (Expr.Number sym)) ∨
    ((∃ sym, lookupExpr st r = some (Expr.Number sym)) ∧
      ((∃ v, st' = setExprAt st r.idx (Expr.UInt64 v)) ∨
       (∃ v, st' = setExprAt st r.idx (Expr.Int64 v)))) := by
  unfold transform_numeric_expr at h
  split at h
  next value heq =>
    refine Or.inr ⟨⟨value, heq⟩, ?_⟩
    split at h
    · simp at h
    · split at h
      · split at h
        · injection h with h'
          exact Or.inl ⟨_, h'.symm⟩
        · simp at h
      · split at h
        · injection h with h'
          exact Or.inr ⟨_, h'.symm⟩
        · simp at h
      · simp at h
  next hne =>
    injection h with h'
    refine Or.inl ⟨h'.symm, ?_⟩
    intro sym hcon
    exact hne sym hcon

/-- Lemma: `transform_numeric_expr` preserves the pool length. -/
theorem transform_length (st st' : TypeCheckerVisitor) (r : ExprRef) (t : TypeDecl)
    (h : transform_numeric_expr st r t = .ok st') :
    st'.core.expr_pool.length = st.core.expr_pool.length := by
  rcases transform_cases st st' r t h with ⟨rfl, -⟩ | ⟨-, ⟨v, rfl⟩ | ⟨v, rfl⟩⟩ <;>
    simp [setExprAt, List.length_set]

/-- Lemma: `transform_numeric_expr` never introduces a `Number` node. -/
theorem transform_preserves_notNum (st st' : TypeCheckerVisitor) (r : ExprRef) (t : TypeDecl)
    (h : transform_numeric_expr st r t = .ok st') (i : Nat) (hi : notNumAt st i) :
    notNumAt st' i := by
  rcases transform_cases st st' r t h with ⟨rfl, -⟩ | ⟨-, ⟨v, rfl⟩ | ⟨v, rfl⟩⟩
  · exact hi
  · intro sym
    by_cases hij : r.idx = i
    · subst hij
      rcases Nat.lt_or_ge r.idx st.core.expr_pool.length with hlt | hge
      · simp [setExprAt, List.getElem?_set_self hlt]
      · have hn : (List.set st.core.expr_pool r.idx (Expr.UInt64 v))[r.idx]? = none :=
          List.getElem?_eq_none_iff.mpr (by simpa using hge)
        simp [setExprAt, hn]
    · simpa [setExprAt, List.getElem?_set_ne hij] using hi sym
  · intro sym
    by_cases hij : r.idx = i
    · subst hij
      rcases Nat.lt_or_ge r.idx st.core.expr_pool.length with hlt | hge
      · simp [setExprAt, List.getElem?_set_self hlt]
      · have hn : (List.set st.core.expr_pool r.idx (Expr.Int64 v))[r.idx]? = none :=
          List.getElem?_eq_none_iff.mpr (by simpa using hge)
        simp [setExprAt, hn]
    · simpa [setExprAt, List.getElem?_set_ne hij] using hi sym

/-- After a successful `transform_numeric_expr` on a `Number` node, the node
at the target index is no longer a `Number`. -/
theorem transform_clears (st st' : TypeCheckerVisitor) (r : ExprRef) (t : TypeDecl)
    (h : transform_numeric_expr st r t = .ok st')
    (hnum : ∃ sym, lookupExpr st r = some (Expr.Number sym)) :
    notNumAt st' r.idx := by
  rcases transform_cases st st' r t h with ⟨rfl, hno⟩ | ⟨-, ⟨v, rfl⟩ | ⟨v, rfl⟩⟩
  · rcases hnum with ⟨sym, hsym⟩
    exact absurd hsym (hno sym)
  · rcases hnum with ⟨sym, hsym⟩
    have hlt : r.idx < st.core.expr_pool.length :=
      (List.get?_eq_some.mp hsym).1
    intro s
    simp [setExprAt, List.getElem?_set_self hlt]
  · rcases hnum with ⟨sym, hsym⟩
    have hlt : r.idx < st.core.expr_pool.length :=
      (List.get?_eq_some.mp hsym).1
    intro s
    simp [setExprAt, List.getElem?_set_self hlt]

/-- Variable-type synchronization does not touch the pools. -/
theorem update_vars_mapped_to_core (st : TypeCheckerVisitor) (r : ExprRef) (t : TypeDecl) :
    (update_vars_mapped_to st r t).core = st.core := rfl

/-- The first finalization pass never introduces a `Number` node, preserves
the pool length, and clears every node listed in the replayed context. -/
theorem first_pass_ok : ∀ (l : List (ExprRef × TypeDecl)) (st st' : TypeCheckerVisitor),
    finalize_first_pass st l = .ok st' →
    st'.core.expr_pool.length = st.core.expr_pool.length ∧
    (∀ i, notNumAt st i → notNumAt st' i) ∧
    (∀ p ∈ l, notNumAt st' p.1.idx) := by
  intro l
  induction l with
  | nil =>
    intro st st' h
    injection h with h'
    subst h'
    exact ⟨rfl, fun _ h => h, by simp⟩
  | cons hd tl ih =>
    intro st st' h
    obtain ⟨r, ty⟩ := hd
    unfold finalize_first_pass at h
    split at h
    next sym heq =>
      split at h
      · simp at h
      next st1 htr =>
        obtain ⟨ihlen, ihpres, ihmem⟩ := ih _ _ h
        have hupd : (update_vars_mapped_to st1 r ty).core = st1.core := rfl
        have hlen1 := transform_length st st1 r ty htr
        refine ⟨?_, ?_, ?_⟩
        · rw [ihlen]
          show st1.core.expr_pool.length = st.core.expr_pool.length
          exact hlen1
        · intro i hi
          exact ihpres i (transform_preserves_notNum st st1 r ty htr i hi)
        · intro p hp
          rcases List.mem_cons.mp hp with rfl | hmem
          · exact ihpres _ (transform_clears st st1 r ty htr ⟨sym, heq⟩)
          · exact ihmem p hmem
    next hne =>
      obtain ⟨ihlen, ihpres, ihmem⟩ := ih _ _ h
      refine ⟨ihlen, ihpres, ?_⟩
      intro p hp
      rcases List.mem_cons.mp hp with rfl | hmem
      · refine ihpres _ ?_
        intro sym hcon
        exact hne sym hcon
      · exact ihmem p hmem

/-- The second finalization pass clears every swept index, given that the
replayed context entries are already clear. -/
theorem second_pass_ok : ∀ (idxs : List Nat) (ctx_info : List (ExprRef × TypeDecl))
    (st st' : TypeCheckerVisitor),
    finalize_second_pass ctx_info st idxs = .ok st' →
    (∀ p ∈ ctx_info, notNumAt st p.1.idx) →
    st'.core.expr_pool.length = st.core.expr_pool.length ∧
    (∀ i, notNumAt st i → notNumAt st' i) ∧
    (∀ i ∈ idxs, notNumAt st' i) := by
  intro idxs
  induction idxs with
  | nil =>
    intro ctx st st' h hctx
    injection h with h'
    subst h'
    exact ⟨rfl, fun _ h => h, by simp⟩
  | cons i rest ih =>
    intro ctx st st' h hctx
    unfold finalize_second_pass at h
    split at h
    next sym heq =>
      split at h
      next hany =>
        rcases List.any_eq_true.mp hany with ⟨p, hp, hpi⟩
        have hpi' : p.1 = ExprRef.mk i := of_decide_eq_true hpi
        have := hctx p hp
        rw [hpi'] at this
        exact absurd heq (this sym)
      next hnotany =>
        dsimp only [] at h
        split at h
        · simp at h
        next st1 htr =>
          have hctx1 : ∀ p ∈ ctx, notNumAt st1 p.1.idx := fun p hp =>
            transform_preserves_notNum st st1 _ _ htr _ (hctx p hp)
          obtain ⟨ihlen, ihpres, ihmem⟩ := ih ctx _ _ h hctx1
          have hlen1 := transform_length st st1 _ _ htr
          refine ⟨?_, ?_, ?_⟩
          · rw [ihlen]
            show st1.core.expr_pool.length = st.core.expr_pool.length
            exact hlen1
          · intro j hj
            exact ihpres j (transform_preserves_notNum st st1 _ _ htr j hj)
          · intro j hj
            rcases List.mem_cons.mp hj with rfl | hmem
            · exact ihpres _ (transform_clears st st1 _ _ htr ⟨sym, heq⟩)
            · exact ihmem j hmem
    next hne =>
      obtain ⟨ihlen, ihpres, ihmem⟩ := ih ctx _ _ h hctx
      refine ⟨ihlen, ihpres, ?_⟩
      intro j hj
      rcases List.mem_cons.mp hj with rfl | hmem
      · refine ihpres _ ?_
        intro sym hcon
        exact hne sym hcon
      · exact ihmem j hmem

/-- A successful `finalize_number_types` leaves no `Number` node anywhere in
the expression pool. -/
theorem finalize_ok (st st' : TypeCheckerVisitor)
    (h : finalize_number_types st = .ok st') : ∀ i, notNumAt st' i := by
  unfold finalize_number_types at h
  dsimp only [] at h
  split at h
  · simp at h
  next st1 hfp =>
    obtain ⟨len1, _, mem1⟩ := first_pass_ok _ _ _ hfp
    obtain ⟨len2, _, mem2⟩ := second_pass_ok _ _ _ _ h mem1
    intro i
    rcases Nat.lt_or_ge i st1.core.expr_pool.length with hlt | hge
    · exact mem2 i (List.mem_range.mpr hlt)
    · intro sym hcon
      have : st'.core.expr_pool.get? i = none := by
        apply List.get?_eq_none.mpr
        omega
      rw [this] at hcon
      exact Option.noConfusion hcon

/-- C1: For every function F, if `type_check(F)` returns Ok (from a state in
which F has not been seen before), then no node anywhere in the expression
pool — in particular none reachable from F's body — is still
`Expr::Number`: the finalization pass has rewritten every unsuffixed numeric
literal in place to `Expr::Int64` or `Expr::UInt64`. -/
theorem C1_number_elimination (fuel : Nat) (st : TypeCheckerVisitor) (func : Function)
    (ty : TypeDecl) (st_out : TypeCheckerVisitor)
    (hfresh : lookupA st.function_checking.is_checked_fn func.name = none)
    (h : type_check fuel st func = .ok (ty, st_out)) :
    ∀ i sym, st_out.core.expr_pool.get? i ≠ some (Expr.Number sym) := by
  cases fuel with
  | zero => exact absurd h (by simp [type_check])
  | succ fuel =>
    unfold type_check at h
    rw [hfresh] at h
    dsimp only [] at h
    split at h
    · simp at h
    next statements hstmts =>
      split at h
      · simp at h
      next last st7 hloop =>
        split at h
        · simp at h
        next st11 hfin =>
          have hclean := finalize_ok _ _ hfin
          split at h
          next expected =>
            split at h
            · simp at h
            · injection h with h'
              injection h' with ha hb
              subst hb
              exact fun i sym => hclean i sym
          next =>
            injection h with h'
            injection h' with ha hb
            subst hb
            exact fun i sym => hclean i sym

/-- Witness for C1 at a concrete program. -/
theorem C1_number_elimination_witness :
    lookupA c1w_st0.function_checking.is_checked_fn c1w_main.name = none ∧
    ∀ i sym, c1w_st_out.core.expr_pool.get? i ≠ some (Expr.Number sym) :=
  ⟨rfl, C1_number_elimination 10 c1w_st0 c1w_main .UInt64 c1w_st_out rfl (by rfl)⟩

/-- C4: `resolve_numeric_types` resolves `(Number, X)` and `(X, Number)` to
`(X, X)` for X in Int64/UInt64, and `(Number, Number)` to the active hint
when it is Int64 or UInt64, defaulting to `(UInt64, UInt64)` otherwise —
including when no hint is active. -/
theorem C4_resolve_numeric_types (st : TypeCheckerVisitor) :
    resolve_numeric_types st .Number .Int64 = .ok (.Int64, .Int64) ∧
    resolve_numeric_types st .Int64 .Number = .ok (.Int64, .Int64) ∧
    resolve_numeric_types st .Number .UInt64 = .ok (.UInt64, .UInt64) ∧
    resolve_numeric_types st .UInt64 .Number = .ok (.UInt64, .UInt64) ∧
    (st.type_inference.type_hint = some .Int64 →
      resolve_numeric_types st .Number .Number = .ok (.Int64, .Int64)) ∧
    (st.type_inference.type_hint = some .UInt64 →
      resolve_numeric_types st .Number .Number = .ok (.UInt64, .UInt64)) ∧
    (st.type_inference.type_hint ≠ some .Int64 →
      st.type_inference.type_hint ≠ some .UInt64 →
      resolve_numeric_types st .Number .Number = .ok (.UInt64, .UInt64)) := by
  refine ⟨rfl, rfl, rfl, rfl, ?_, ?_, ?_⟩
  · intro h
    simp [resolve_numeric_types, h]
  · intro h
    simp [resolve_numeric_types, h]
  · intro h1 h2
    rcases hh : st.type_inference.type_hint with _ | t
    · simp [resolve_numeric_types, hh]
    · rw [hh] at h1 h2
      cases t <;> simp_all [resolve_numeric_types]

/-- Witness for C4: a `Bool` hint still defaults `(Number, Number)` to
`(UInt64, UInt64)`. -/
theorem C4_resolve_numeric_types_witness :
    resolve_numeric_types c4w_st .Number .Number = .ok (.UInt64, .UInt64) :=
  (C4_resolve_numeric_types c4w_st).2.2.2.2.2.2 (by decide) (by decide)

/-- C8: every rewrite performed by `transform_numeric_expr` replaces the
`Expr::Number` node at pool index i with an `Expr::Int64` or `Expr::UInt64`
node at the same index i; the pool length is unchanged and every other pool
entry is unchanged, so previously issued `ExprRef`s stay valid. -/
theorem C8_transform_in_place (st st' : TypeCheckerVisitor) (r : ExprRef) (t : TypeDecl)
    (h : transform_numeric_expr st r t = .ok st') :
    st'.core.expr_pool.length = st.core.expr_pool.length ∧
    (∀ j, j ≠ r.idx → st'.core.expr_pool.get? j = st.core.expr_pool.get? j) ∧
    (∀ sym, st.core.expr_pool.get? r.idx = some (Expr.Number sym) →
      (∃ v, st'.core.expr_pool.get? r.idx = some (Expr.UInt64 v)) ∨
      (∃ v, st'.core.expr_pool.get? r.idx = some (Expr.Int64 v))) := by
  refine ⟨transform_length st st' r t h, ?_, ?_⟩
  · intro j hj
    rcases transform_cases st st' r t h with ⟨rfl, -⟩ | ⟨-, ⟨v, rfl⟩ | ⟨v, rfl⟩⟩
    · rfl
    · simp [setExprAt, List.getElem?_set_ne (fun hc => hj hc.symm)]
    · simp [setExprAt, List.getElem?_set_ne (fun hc => hj hc.symm)]
  · intro sym hsym
    have hlt : r.idx < st.core.expr_pool.length := (List.get?_eq_some.mp hsym).1
    rcases transform_cases st st' r t h with ⟨rfl, hno⟩ | ⟨-, ⟨v, rfl⟩ | ⟨v, rfl⟩⟩
    · exact absurd hsym (hno sym)
    · exact Or.inl ⟨v, by simp [setExprAt, List.getElem?_set_self hlt]⟩
    · exact Or.inr ⟨v, by simp [setExprAt, List.getElem?_set_self hlt]⟩

/-- Witness for C8 at a concrete rewrite. -/
theorem C8_transform_in_place_witness :
    c8w_st_out.core.expr_pool.length = c8w_st.core.expr_pool.length ∧
    (∀ j, j ≠ (ExprRef.mk 0).idx →
      c8w_st_out.core.expr_pool.get? j = c8w_st.core.expr_pool.get? j) ∧
    (∀ sym, c8w_st.core.expr_pool.get? (ExprRef.mk 0).idx = some (Expr.Number sym) →
      (∃ v, c8w_st_out.core.expr_pool.get? (ExprRef.mk 0).idx = some (Expr.UInt64 v)) ∨
      (∃ v, c8w_st_out.core.expr_pool.get? (ExprRef.mk 0).idx = some (Expr.Int64 v))) :=
  C8_transform_in_place c8w_st c8w_st_out ⟨0⟩ .Int64 (by rfl)

/-- A value accepted by the i64 parser is at most `i64::MAX`. -/
theorem parseI64_le_max (s : String) (v : Int) (h : parseI64 s = some v) : v ≤ i64Max := by
  unfold parseI64 at h
  split at h
  · rename_i cs heq
    cases hdv : digitsVal cs with
    | none => rw [hdv] at h; simp at h
    | some n =>
      rw [hdv] at h
      simp only [Option.some_bind] at h
      split at h
      · injection h with h'
        subst h'
        have h0 : (0 : Int) ≤ (n : Int) := Int.ofNat_nonneg n
        have h1 : (0 : Int) ≤ i64Max := by norm_num [i64Max]
        omega
      · simp at h
  · rename_i cs heq
    cases hdv : digitsVal cs with
    | none => rw [hdv] at h; simp at h
    | some n =>
      rw [hdv] at h
      simp only [Option.some_bind] at h
      split at h
      · rename_i hle
        injection h with h'
        subst h'
        exact hle
      · simp at h
  · cases hdv : digitsVal s.data with
    | none => rw [hdv] at h; simp at h
    | some n =>
      rw [hdv] at h
      simp only [Option.some_bind] at h
      split at h
      · rename_i hle
        injection h with h'
        subst h'
        exact hle
      · simp at h

/-- Without an `Int64`/`UInt64` hint, `visit_number_literal` runs its default
parse-and-classify logic. -/
theorem visit_number_literal_default (st : TypeCheckerVisitor) (value : Nat) (num_str : String)
    (hres : resolveSym st.core.string_interner value = some num_str)
    (h1 : st.type_inference.type_hint ≠ some .Int64)
    (h2 : st.type_inference.type_hint ≠ some .UInt64) :
    visit_number_literal st value =
      (match parseI64 num_str with
       | some val => if 0 ≤ val ∧ val ≤ i64Max then .ok (.Number, st) else .ok (.Int64, st)
       | none =>
         match parseU64 num_str with
         | some _ => .ok (.UInt64, st)
         | none => .error (TypeCheckError.invalid_literal num_str "number")) := by
  rcases hh : st.type_inference.type_hint with _ | t
  · simp [visit_number_literal, hres, hh]
  · cases t <;> simp_all [visit_number_literal, hres]

/-- C5: under an `Int64` or `UInt64` hint a digit string that does not parse
at the hinted width is a ConversionError; with no such hint a non-negative
value fitting i64 stays `Number`, a negative one becomes `Int64`
immediately, and a value beyond `i64::MAX` that fits u64 becomes `UInt64`
immediately. -/
theorem C5_visit_number_literal (st : TypeCheckerVisitor) (value : Nat) (num_str : String)
    (hres : resolveSym st.core.string_interner value = some num_str) :
    (st.type_inference.type_hint = some .Int64 → parseI64 num_str = none →
      visit_number_literal st value = .error (TypeCheckError.conversion_error num_str "Int64")) ∧
    (st.type_inference.type_hint = some .UInt64 → parseU64 num_str = none →
      visit_number_literal st value = .error (TypeCheckError.conversion_error num_str "UInt64")) ∧
    (st.type_inference.type_hint ≠ some .Int64 → st.type_inference.type_hint ≠ some .UInt64 →
      (∀ v, parseI64 num_str = some v →
        (0 ≤ v → visit_number_literal st value = .ok (.Number, st)) ∧
        (v < 0 → visit_number_literal st value = .ok (.Int64, st))) ∧
      (parseI64 num_str = none → ∀ w, parseU64 num_str = some w →
        visit_number_literal st value = .ok (.UInt64, st))) := by
  refine ⟨?_, ?_, ?_⟩
  · intro hh hp
    simp [visit_number_literal, hres, hh, hp]
  · intro hh hp
    simp [visit_number_literal, hres, hh, hp]
  · intro h1 h2
    rw [visit_number_literal_default st value num_str hres h1 h2]
    refine ⟨?_, ?_⟩
    · intro v hv
      have hle := parseI64_le_max num_str v hv
      constructor
      · intro h0
        simp [hv, h0, hle]
      · intro hneg
        have hc : ¬(0 ≤ v ∧ v ≤ i64Max) := by
          intro hand
          exact absurd hand.1 (not_le.mpr hneg)
        simp [hv, hc]
    · intro hn w hw
      simp [hn, hw]

/-- Witness for C5: with no hint, the unsuffixed literal 5 keeps the
intermediate `Number` type. -/
theorem C5_visit_number_literal_witness :
    visit_number_literal c5w_st 0 = .ok (.Number, c5w_st) :=
  (((C5_visit_number_literal c5w_st 0 "5" rfl).2.2 (by decide) (by decide)).1 5 (by rfl)).1
    (by norm_num)

/-- C10: visiting a `Block` with an empty statement list always fails with
the GenericError message, never yielding a type — any fuel, any state. -/
theorem C10_empty_block_error :
    (∀ fuel (st : TypeCheckerVisitor), visit_block (fuel + 2) st [] =
      .error (TypeCheckError.generic_error "Empty block - no return value")) ∧
    (∀ fuel (st : TypeCheckerVisitor) ty st', visit_block fuel st [] ≠ .ok (ty, st')) := by
  have hmain : ∀ fuel (st : TypeCheckerVisitor), visit_block (fuel + 2) st [] =
      .error (TypeCheckError.generic_error "Empty block - no return value") := by
    intro fuel st
    simp [visit_block, visit_block_stmts, prescan_global_numeric_type]
  refine ⟨hmain, ?_⟩
  intro fuel st ty st'
  match fuel with
  | 0 => simp [visit_block]
  | 1 => simp [visit_block, visit_block_stmts]
  | (n + 2) => rw [hmain n st]; simp

/-- Witness for C10 at a concrete state. -/
theorem C10_empty_block_error_witness :
    visit_block 2 c10w_st [] =
      .error (TypeCheckError.generic_error "Empty block - no return value") :=
  C10_empty_block_error.1 0 c10w_st

/-- The elif loop consults only the block component of each pair. -/
theorem collect_elif_types_congr : ∀ (elifs elifs' : List (ExprRef × ExprRef)),
    elifs.map Prod.snd = elifs'.map Prod.snd →
    ∀ fuel st, collect_elif_types fuel st elifs = collect_elif_types fuel st elifs' := by
  intro elifs
  induction elifs with
  | nil =>
    intro e' h fuel st
    cases e' with
    | nil => rfl
    | cons a b => simp at h
  | cons p rest ih =>
    intro e' h fuel st
    cases e' with
    | nil => simp at h
    | cons q rest' =>
      simp only [List.map_cons, List.cons.injEq] at h
      obtain ⟨hpq, hrest⟩ := h
      cases fuel with
      | zero => rfl
      | succ fuel =>
        simp only [collect_elif_types]
        rw [hpq]
        simp only [ih rest' hrest]

/-- C9: the type checker never visits or constrains the condition of an
if/elif/else or while: the result is identical under any replacement of the
conditions, so a condition of any type cannot by itself raise an error. -/
theorem C9_conditions_not_visited :
    (∀ fuel (st : TypeCheckerVisitor) c c' tb (elifs elifs' : List (ExprRef × ExprRef)) eb,
      elifs.map Prod.snd = elifs'.map Prod.snd →
      visit_if_elif_else fuel st c tb elifs eb =
        visit_if_elif_else fuel st c' tb elifs' eb) ∧
    (∀ fuel (st : TypeCheckerVisitor) c c' body,
      visit_while fuel st c body = visit_while fuel st c' body) := by
  constructor
  · intro fuel st c c' tb elifs elifs' eb h
    cases fuel with
    | zero => rfl
    | succ fuel =>
      simp only [visit_if_elif_else]
      simp only [collect_elif_types_congr elifs elifs' h]
  · intro fuel st c c' body
    cases fuel with
    | zero => rfl
    | succ fuel => simp only [visit_while]

/-- Witness for C9: swapping the if and elif conditions of a concrete
program leaves the check unchanged. -/
theorem C9_conditions_not_visited_witness :
    visit_if_elif_else 5 c9w_st ⟨7⟩ ⟨0⟩ [(⟨8⟩, ⟨0⟩)] ⟨0⟩ =
      visit_if_elif_else 5 c9w_st ⟨9⟩ ⟨0⟩ [(⟨10⟩, ⟨0⟩)] ⟨0⟩ :=
  C9_conditions_not_visited.1 5 c9w_st ⟨7⟩ ⟨9⟩ ⟨0⟩ [(⟨8⟩, ⟨0⟩)] [(⟨10⟩, ⟨0⟩)] ⟨0⟩ (by rfl)

/-- C6: branches whose block is the empty `Block([])` are ignored; if every
branch is empty the result is `Unit`; if the collected (non-empty) branch
types all agree the result is that type, and if they differ the result is
`Unit` with no error raised. -/
theorem C6_if_elif_else_types :
    (∀ fuel (st : TypeCheckerVisitor) r msg, lookupExpr st r = some (Expr.Block []) →
      check_branch (fuel + 1) st r msg = .ok (none, st)) ∧
    (∀ fuel (st : TypeCheckerVisitor) c tb eb, lookupExpr st tb = some (Expr.Block []) →
      lookupExpr st eb = some (Expr.Block []) →
      visit_if_elif_else (fuel + 2) st c tb [] eb = .ok (.Unit, st)) ∧
    if_elif_else_result [] = .Unit ∧
    (∀ t ts, ts.all (fun x => x == t) = true → if_elif_else_result (t :: ts) = t) ∧
    (∀ t ts, ts.all (fun x => x == t) = false → if_elif_else_result (t :: ts) = .Unit) := by
  have hskip : ∀ fuel (st : TypeCheckerVisitor) r msg,
      lookupExpr st r = some (Expr.Block []) →
      check_branch (fuel + 1) st r msg = .ok (none, st) := by
    intro fuel st r msg h
    simp [check_branch, h]
  refine ⟨hskip, ?_, rfl, ?_, ?_⟩
  · intro fuel st c tb eb h1 h2
    simp only [visit_if_elif_else, collect_elif_types]
    rw [hskip fuel st tb "Invalid if block expression reference" h1]
    simp only [hskip fuel st eb "Invalid else block expression reference" h2]
    simp [if_elif_else_result]
  · intro t ts h
    simp [if_elif_else_result, h]
  · intro t ts h
    simp [if_elif_else_result, h]

/-- Witness for C6: all branches empty yields `Unit`. -/
theorem C6_if_elif_else_types_witness :
    visit_if_elif_else 2 c6w_st ⟨5⟩ ⟨0⟩ [] ⟨0⟩ = .ok (.Unit, c6w_st) :=
  C6_if_elif_else_types.2.1 0 c6w_st ⟨5⟩ ⟨0⟩ ⟨0⟩ (by rfl) (by rfl)

/-- C7: operands of opposite signedness (one `Int64`, one `UInt64`) make
`resolve_numeric_types` — and hence `visit_binary`, for any operator — fail
with `TypeMismatchOperation("mixed signed/unsigned", …)`; neither side is
coerced. -/
theorem C7_mixed_signedness_rejected :
    (∀ st : TypeCheckerVisitor, resolve_numeric_types st .Int64 .UInt64 =
      .error (TypeCheckError.type_mismatch_operation "mixed signed/unsigned" .Int64 .UInt64)) ∧
    (∀ st : TypeCheckerVisitor, resolve_numeric_types st .UInt64 .Int64 =
      .error (TypeCheckError.type_mismatch_operation "mixed signed/unsigned" .UInt64 .Int64)) ∧
    (∀ fuel (st : TypeCheckerVisitor) op lhs rhs lo ro st1 st2,
      lookupExpr st lhs = some lo →
      accept_expr fuel st lo = .ok (.Int64, st1) →
      lookupExpr st1 rhs = some ro →
      accept_expr fuel st1 ro = .ok (.UInt64, st2) →
      visit_binary (fuel + 1) st op lhs rhs =
        .error (TypeCheckError.type_mismatch_operation "mixed signed/unsigned" .Int64 .UInt64)) ∧
    (∀ fuel (st : TypeCheckerVisitor) op lhs rhs lo ro st1 st2,
      lookupExpr st lhs = some lo →
      accept_expr fuel st lo = .ok (.UInt64, st1) →
      lookupExpr st1 rhs = some ro →
      accept_expr fuel st1 ro = .ok (.Int64, st2) →
      visit_binary (fuel + 1) st op lhs rhs =
        .error (TypeCheckError.type_mismatch_operation "mixed signed/unsigned" .UInt64 .Int64)) := by
  refine ⟨fun st => rfl, fun st => rfl, ?_, ?_⟩
  · intro fuel st op lhs rhs lo ro st1 st2 h1 h2 h3 h4
    simp [visit_binary, h1, h2, h3, h4, resolve_numeric_types]
  · intro fuel st op lhs rhs lo ro st1 st2 h1 h2 h3 h4
    simp [visit_binary, h1, h2, h3, h4, resolve_numeric_types]

/-- Witness for C7 at a concrete mixed-sign addition. -/
theorem C7_mixed_signedness_rejected_witness :
    visit_binary 2 c7w_st .IAdd ⟨0⟩ ⟨1⟩ =
      .error (TypeCheckError.type_mismatch_operation "mixed signed/unsigned" .Int64 .UInt64) :=
  C7_mixed_signedness_rejected.2.2.1 1 c7w_st .IAdd ⟨0⟩ ⟨1⟩ (Expr.Int64 1) (Expr.UInt64 2)
    c7w_st c7w_st (by rfl) (by rfl) (by rfl) (by rfl)

/-! ## C2 and C3: concrete evaluator behavior -/

/-- C2 counterexample: dividing by zero does not produce a reported runtime
error (`Err`); it is a `panic!` — the evaluator crashes, refuting the claim
that division by zero "is reported as a runtime error rather than a crash".
-/
theorem C2_div_by_zero_is_a_panic :
    evaluate 3 c2x_ctx ⟨2⟩ = .error (EvalError.panic "attempt to divide by zero") := rfl

/-- C2 (amended): for operands of the same integer type, `+`, `-`, `*`
return the host's two's-complement wrapping result and `/` the truncated
quotient, but division by zero (and `i64::MIN / -1`) panics — crashes —
rather than being reported as a runtime error. -/
theorem C2_binary_arithmetic_wrapping (fuel : Nat) (ctx : EvaluationContext)
    (e l r : ExprRef) :
    (∀ (op : Operator) (a b : Int),
      ctx.expr_pool.get? e.idx = some (Expr.Binary op l r) →
      ctx.expr_pool.get? l.idx = some (Expr.Int64 a) →
      ctx.expr_pool.get? r.idx = some (Expr.Int64 b) →
      (op = .IAdd → evaluate (fuel + 2) ctx e = .ok (.Int64 (wrapI64 (a + b)), ctx)) ∧
      (op = .ISub → evaluate (fuel + 2) ctx e = .ok (.Int64 (wrapI64 (a - b)), ctx)) ∧
      (op = .IMul → evaluate (fuel + 2) ctx e = .ok (.Int64 (wrapI64 (a * b)), ctx)) ∧
      (op = .IDiv → b ≠ 0 → ¬(a = i64Min ∧ b = -1) →
        evaluate (fuel + 2) ctx e = .ok (.Int64 (Int.tdiv a b), ctx)) ∧
      (op = .IDiv → b = 0 →
        evaluate (fuel + 2) ctx e = .error (EvalError.panic "attempt to divide by zero"))) ∧
    (∀ (op : Operator) (a b : Nat),
      ctx.expr_pool.get? e.idx = some (Expr.Binary op l r) →
      ctx.expr_pool.get? l.idx = some (Expr.UInt64 a) →
      ctx.expr_pool.get? r.idx = some (Expr.UInt64 b) →
      (op = .IAdd → evaluate (fuel + 2) ctx e =
        .ok (.UInt64 (wrapU64 ((a : Int) + (b : Int))), ctx)) ∧
      (op = .ISub → evaluate (fuel + 2) ctx e =
        .ok (.UInt64 (wrapU64 ((a : Int) - (b : Int))), ctx)) ∧
      (op = .IMul → evaluate (fuel + 2) ctx e =
        .ok (.UInt64 (wrapU64 ((a : Int) * (b : Int))), ctx)) ∧
      (op = .IDiv → b ≠ 0 → evaluate (fuel + 2) ctx e = .ok (.UInt64 (a / b), ctx)) ∧
      (op = .IDiv → b = 0 →
        evaluate (fuel + 2) ctx e = .error (EvalError.panic "attempt to divide by zero"))) := by
  constructor
  · intro op a b he hl hr
    simp only [List.get?_eq_getElem?] at he hl hr
    refine ⟨?_, ?_, ?_, ?_, ?_⟩
    · rintro rfl
      simp [evaluate, he, hl, hr, Expr.is_basic_literal, convert_object, objectType, eval_binary_op]
    · rintro rfl
      simp [evaluate, he, hl, hr, Expr.is_basic_literal, convert_object, objectType, eval_binary_op]
    · rintro rfl
      simp [evaluate, he, hl, hr, Expr.is_basic_literal, convert_object, objectType, eval_binary_op]
    · rintro rfl hb hmin
      simp [evaluate, he, hl, hr, Expr.is_basic_literal, convert_object, objectType,
        eval_binary_op, hb, hmin]
    · rintro rfl rfl
      simp [evaluate, he, hl, hr, Expr.is_basic_literal, convert_object, objectType, eval_binary_op]
  · intro op a b he hl hr
    simp only [List.get?_eq_getElem?] at he hl hr
    refine ⟨?_, ?_, ?_, ?_, ?_⟩
    · rintro rfl
      simp [evaluate, he, hl, hr, Expr.is_basic_literal, convert_object, objectType, eval_binary_op]
    · rintro rfl
      simp [evaluate, he, hl, hr, Expr.is_basic_literal, convert_object, objectType, eval_binary_op]
    · rintro rfl
      simp [evaluate, he, hl, hr, Expr.is_basic_literal, convert_object, objectType, eval_binary_op]
    · rintro rfl hb
      simp [evaluate, he, hl, hr, Expr.is_basic_literal, convert_object, objectType,
        eval_binary_op, hb]
    · rintro rfl rfl
      simp [evaluate, he, hl, hr, Expr.is_basic_literal, convert_object, objectType, eval_binary_op]

/-- Witness for the amended C2 at a concrete addition. -/
theorem C2_binary_arithmetic_wrapping_witness :
    evaluate 5 c2w_ctx ⟨2⟩ = .ok (.Int64 (wrapI64 (3 + 4)), c2w_ctx) :=
  ((C2_binary_arithmetic_wrapping 3 c2w_ctx ⟨2⟩ ⟨0⟩ ⟨1⟩).1 .IAdd 3 4 rfl rfl rfl).1 rfl

/-! ## C3: scenario S7 on the implementation

The program `fn main() -> i64 { val a: i64 = 5; a + 7 }`. -/

/-- C3: the S7 scenario diverges from the spec on this code.  Type checking
succeeds with `Int64` and rewrites `5` to `Int64 5`, but rewrites `7` to
`UInt64 7` — not `Int64 7` as claimed — so the typed AST mixes `Int64` and
`UInt64` in one addition and evaluating `main` panics instead of producing
`Int64(12)`. -/
theorem C3_s7_number_inference_diverges :
    type_check 20 c3_st0 c3_main = .ok (.Int64, c3_st_checked) ∧
    c3_st_checked.core.expr_pool.get? 0 = some (Expr.Int64 5) ∧
    c3_st_checked.core.expr_pool.get? 2 = some (Expr.UInt64 7) ∧
    evaluate_main 20 c3_eval_ctx c3_main =
      .error (EvalError.panic "evaluate: Bad types for binary operation due to different type") :=
  ⟨rfl, rfl, rfl, rfl⟩

end Toylang
